import Mathlib

/-!
Verification of the ask-anything-mcp core against its specification.

The development shallowly embeds the relevant JavaScript source files:
* `src/transformers/analysisData.js` (generic condensation engine, journal
  analysis reshaper),
* `src/transformers/journalData.js` (score labels, day offsets, search-result
  transform),
* `src/transformers/dateRangeData.js` (`calculateDaysBehind`),
* `src/tools/journal/listJournalEntries.js` (hard page cap at 100),
* `src/tools/session/listVillageMembers.js` (roster sort),
* `src/session/sessionManager.js` (session store),
* the `ToolRegistry` (registration, `getToolDefinitions`, `executeTool`) and
  `MCPCore.executeTools` (sequential batch execution).

JavaScript numbers are modelled as rationals (`Rat`), JSON values as the
inductive `JsonVal`, absent object fields as `Option`, and thrown exceptions
as `Except`.  Wall-clock reads (`Date.now()`) are passed in explicitly, and
the runtime timezone is an explicit offset parameter (minutes east of UTC).
-/

namespace AAM

/-- A JSON value, the data transformed by the condensation engine. -/
inductive JsonVal : Type where
  | jnull : JsonVal
  | jbool : Bool → JsonVal
  | jnum : Rat → JsonVal
  | jstr : String → JsonVal
  | jarr : List JsonVal → JsonVal
  | jobj : List (String × JsonVal) → JsonVal

/-- `CONDENSATION_CONFIG.arrayTruncation` from `analysisData.js`:
per-key item limits for array truncation. -/
def arrayTruncation (key : String) : Option Nat :=
  if key = "dailyBehaviorScores" then some 3
  else if key = "contributingUsers" then some 2
  else if key = "village" then some 2
  else if key = "topCaregivers" then some 2
  else if key = "bottomCaregivers" then some 2
  else if key = "enhancers" then some 2
  else if key = "triggers" then some 2
  else if key = "medicationChanges" then some 2
  else if key = "journalEntries" then some 3
  else if key = "hashtags" then some 3
  else if key = "keyMoments" then some 2
  else if key = "hashtagsByType" then some 3
  else if key = "behaviorGoals" then some 3
  else if key = "medications" then some 3
  else none

/-- `CONDENSATION_CONFIG.defaultArrayLimit`. -/
def defaultArrayLimit : Nat := 3

/-- `CONDENSATION_CONFIG.minSizeToTruncate`. -/
def minSizeToTruncate : Nat := 4

/-- The per-key item limit:
`CONDENSATION_CONFIG.arrayTruncation[key] || CONDENSATION_CONFIG.defaultArrayLimit`
(every table entry is a nonzero number, so `||` is a plain default). -/
def arrayLimit (key : String) : Nat :=
  (arrayTruncation key).getD defaultArrayLimit

/-- The synthetic marker object pushed by `condenseArray` when it truncates:
`{_truncated: "<n> more items (<total> total)", _note: "Original array had
<total> items, showing first <limit>"}`. -/
def truncMarker (remainingCount total limit : Nat) : JsonVal :=
  JsonVal.jobj
    [("_truncated", JsonVal.jstr
        (toString remainingCount ++ " more items (" ++ toString total ++ " total)")),
     ("_note", JsonVal.jstr
        ("Original array had " ++ toString total ++ " items, showing first "
          ++ toString limit))]

theorem one_le_sizeOf_list (l : List JsonVal) : 1 ≤ sizeOf l := by
  cases l with
  | nil => simp
  | cons a as => simp; omega

theorem sizeOf_take_lt (n : Nat) (l : List JsonVal) (h : n < l.length) :
    sizeOf (l.take n) < sizeOf l := by
  induction l generalizing n with
  | nil => simp at h
  | cons a as ih =>
    cases n with
    | zero =>
      have := one_le_sizeOf_list as
      simp; omega
    | succ m =>
      simp only [List.take_succ_cons, List.cons.sizeOf_spec]
      have := ih m (by simpa using h)
      omega

mutual

/-- `condenseObject(obj, parentKey)` from `analysisData.js`: recursively
condense a value, arrays dispatching to `condenseArray` under the parent key,
object fields recursing under the field name. -/
def condenseObject : JsonVal → String → JsonVal
  | JsonVal.jarr items, parentKey => JsonVal.jarr (condenseArray items parentKey)
  | JsonVal.jobj fields, _ => JsonVal.jobj (condenseFields fields)
  | v, _ => v
termination_by v _ => (sizeOf v, 2)
decreasing_by
  all_goals apply Prod.Lex.left <;> simp <;> omega

/-- The field-by-field recursion of `condenseObject` over an object's
entries (`result[key] = condenseObject(value, key)`). -/
def condenseFields : List (String × JsonVal) → List (String × JsonVal)
  | [] => []
  | (k, v) :: rest => (k, condenseObject v k) :: condenseFields rest
termination_by fs => (sizeOf fs, 0)
decreasing_by
  all_goals apply Prod.Lex.left <;> simp <;> omega

/-- `arr.map(item => condenseObject(item))` — each item condensed with the
default parent key `''`. -/
def condenseItems : List JsonVal → List JsonVal
  | [] => []
  | v :: rest => condenseObject v "" :: condenseItems rest
termination_by l => (sizeOf l, 0)
decreasing_by
  all_goals apply Prod.Lex.left <;> simp <;> omega

/-- `condenseArray(arr, key)` from `analysisData.js`: keep small arrays
(length `< minSizeToTruncate`) and arrays within the key's limit unchanged in
length (items still recursively condensed); otherwise keep the first `limit`
items and push the synthetic truncation marker. -/
def condenseArray (items : List JsonVal) (key : String) : List JsonVal :=
  if items.length < minSizeToTruncate then
    condenseItems items
  else
    let limit := arrayLimit key
    if items.length ≤ limit then
      condenseItems items
    else
      condenseItems (items.take limit)
        ++ [truncMarker (items.length - limit) items.length limit]
termination_by (sizeOf items, 1)
decreasing_by
  all_goals first
    | (apply Prod.Lex.right; omega)
    | (apply Prod.Lex.left; exact sizeOf_take_lt _ _ (by omega))

end

theorem condenseItems_eq_map (l : List JsonVal) :
    condenseItems l = l.map (fun v => condenseObject v "") := by
  induction l with
  | nil => simp [condenseItems]
  | cons v rest ih => simp [condenseItems, ih]

/-- C1: under key context `k`, an array of length `L` with limit
`K = arrayLimit k` is truncated exactly when `L ≥ 4` (the floor) and `L > K`:
the result is the first `K` elements (each recursively condensed) followed by
one synthetic marker carrying the elided count `L − K` and the total `L`, so
it has length `K + 1`; otherwise the result keeps all `L` elements in their
original order with no marker. -/
theorem condenseArray_c1 (items : List JsonVal) (key : String) :
    (4 ≤ items.length → arrayLimit key < items.length →
      condenseArray items key
        = (items.take (arrayLimit key)).map (fun v => condenseObject v "")
            ++ [truncMarker (items.length - arrayLimit key) items.length
                  (arrayLimit key)]
      ∧ (condenseArray items key).length = arrayLimit key + 1)
    ∧ (items.length < 4 ∨ items.length ≤ arrayLimit key →
      condenseArray items key = items.map (fun v => condenseObject v "")
      ∧ (condenseArray items key).length = items.length) := by
  constructor
  · intro h4 hK
    have hfloor : ¬ items.length < minSizeToTruncate := by
      simp [minSizeToTruncate]; omega
    have hlim : ¬ items.length ≤ arrayLimit key := by omega
    constructor
    · simp [condenseArray, hfloor, hlim, condenseItems_eq_map]
    · simp [condenseArray, hfloor, hlim, condenseItems_eq_map]
      omega
  · intro h
    have heq : condenseArray items key = condenseItems items := by
      rcases h with h | h
      · have : items.length < minSizeToTruncate := by
          simp [minSizeToTruncate]; omega
        simp [condenseArray, this]
      · by_cases hfloor : items.length < minSizeToTruncate
        · simp [condenseArray, hfloor]
        · simp [condenseArray, hfloor, h]
    rw [heq, condenseItems_eq_map]
    simp

/-- Witness for C1: a 5-element array under key `"village"` (limit 2) is
truncated to 2 items plus one marker; a 3-element array under an unlisted key
(floor 4) is kept whole. -/
theorem condenseArray_c1_witness :
    (condenseArray
        [JsonVal.jnull, JsonVal.jbool true, JsonVal.jstr "a", JsonVal.jnull,
          JsonVal.jstr "b"] "village"
      = [JsonVal.jnull, JsonVal.jbool true, truncMarker 3 5 2]
      ∧ (condenseArray
          [JsonVal.jnull, JsonVal.jbool true, JsonVal.jstr "a", JsonVal.jnull,
            JsonVal.jstr "b"] "village").length = 2 + 1)
    ∧ (condenseArray [JsonVal.jnull, JsonVal.jbool true, JsonVal.jstr "a"] "x"
        = [JsonVal.jnull, JsonVal.jbool true, JsonVal.jstr "a"]
      ∧ (condenseArray
          [JsonVal.jnull, JsonVal.jbool true, JsonVal.jstr "a"] "x").length
          = 3) := by
  constructor
  · have h := (condenseArray_c1
      [JsonVal.jnull, JsonVal.jbool true, JsonVal.jstr "a", JsonVal.jnull,
        JsonVal.jstr "b"] "village").1
      (by simp) (by simp [arrayLimit, arrayTruncation, defaultArrayLimit])
    simpa [arrayLimit, arrayTruncation, defaultArrayLimit, condenseObject,
      List.take] using h
  · have h := (condenseArray_c1
      [JsonVal.jnull, JsonVal.jbool true, JsonVal.jstr "a"] "x").2
      (Or.inl (by simp))
    simpa [condenseObject] using h

/-! ## Calendar arithmetic

`Date` handling: a calendar date is identified with its day number (days since
1970-01-01 UTC).  `daysFromCivil`/`civilFromDays` are the standard Gregorian
conversions; `parseYMD` models the strict ISO `YYYY-MM-DD` parse performed by
`new Date(datePart + 'T00:00:00.000Z')` (an out-of-range component makes an
Invalid Date, modelled as `none`). -/

def msPerDay : Int := 86400000

def isLeapYear (y : Int) : Bool :=
  (y % 4 == 0 && y % 100 != 0) || y % 400 == 0

def daysInMonth (y m : Int) : Int :=
  if m = 2 then (if isLeapYear y then 29 else 28)
  else if m = 4 ∨ m = 6 ∨ m = 9 ∨ m = 11 then 30
  else 31

/-- Days since 1970-01-01 of the Gregorian date `y-m-d`. -/
def daysFromCivil (y m d : Int) : Int :=
  let yAdj := if m ≤ 2 then y - 1 else y
  let era := (if 0 ≤ yAdj then yAdj else yAdj - 399) / 400
  let yoe := yAdj - era * 400
  let mp := (m + 9) % 12
  let doy := (153 * mp + 2) / 5 + d - 1
  let doe := yoe * 365 + yoe / 4 - yoe / 100 + doy
  era * 146097 + doe - 719468

/-- Gregorian date `(y, m, d)` of a day number. -/
def civilFromDays (z0 : Int) : Int × Int × Int :=
  let z := z0 + 719468
  let era := (if 0 ≤ z then z else z - 146096) / 146097
  let doe := z - era * 146097
  let yoe := (doe - doe / 1460 + doe / 36524 - doe / 146096) / 365
  let y := yoe + era * 400
  let doy := doe - (365 * yoe + yoe / 4 - yoe / 100)
  let mp := (5 * doy + 2) / 153
  let d := doy - (153 * mp + 2) / 5 + 1
  let m := mp + (if mp < 10 then 3 else -9)
  (if m ≤ 2 then y + 1 else y, m, d)

/-- `String.split(sep)` for a one-character separator, by structural
recursion (so that concrete inputs evaluate inside the kernel). -/
def splitOnCharAux (c : Char) : List Char → List Char → List (List Char)
  | [], acc => [acc.reverse]
  | x :: xs, acc =>
    if x = c then acc.reverse :: splitOnCharAux c xs []
    else splitOnCharAux c xs (x :: acc)

def splitOnChar (c : Char) (s : String) : List String :=
  (splitOnCharAux c s.toList []).map (fun l => String.mk l)

/-- `pieces[0]` of a `split` result (a split is never the empty list). -/
def headStr : List String → String
  | [] => ""
  | x :: _ => x

def parseDigits (s : String) : Option Nat :=
  if s.length > 0 ∧ s.toList.all Char.isDigit then
    some (s.toList.foldl (fun acc c => acc * 10 + (c.toNat - 48)) 0)
  else none

/-- Parse `YYYY-MM-DD` to a day number; anything else is an Invalid Date. -/
def parseYMD (s : String) : Option Int :=
  match splitOnChar '-' s with
  | [ys, ms, ds] =>
    if ys.length = 4 ∧ ms.length = 2 ∧ ds.length = 2 then
      match parseDigits ys, parseDigits ms, parseDigits ds with
      | some y, some m, some d =>
        if 1 ≤ (m : Int) ∧ (m : Int) ≤ 12 ∧ 1 ≤ (d : Int)
            ∧ (d : Int) ≤ daysInMonth (y : Int) (m : Int) then
          some (daysFromCivil (y : Int) (m : Int) (d : Int))
        else none
      | _, _, _ => none
    else none
  | _ => none

def padTwo (n : Nat) : String :=
  if n < 10 then "0" ++ toString n else toString n

/-- `toISOString().split('T')[0]` of a UTC timestamp (ms): the `YYYY-MM-DD`
string of its UTC calendar day. -/
def isoDateOfMs (ms : Int) : String :=
  let z := Int.fdiv ms msPerDay
  let c := civilFromDays z
  toString c.1 ++ "-" ++ padTwo c.2.1.toNat ++ "-" ++ padTwo c.2.2.toNat

/-- The epoch timestamp of the most recent midnight in the runtime timezone
(`tzMin` minutes east of UTC): what `today.setHours(0, 0, 0, 0)` produces.
`tzMin = 0` is a UTC runtime. -/
def localMidnightMs (now tzMin : Int) : Int :=
  let off := tzMin * 60000
  Int.fdiv (now + off) msPerDay * msPerDay - off

/-- `calculateDaysAgo(dateString)` from `journalData.js`: `null` for a missing
or unparseable date; otherwise the floored whole-day difference between the
runtime's local midnight of "now" and midnight UTC of the date, clamped to a
minimum of zero.  `now` (epoch ms) and the runtime timezone offset are
explicit parameters. -/
def calculateDaysAgo (dateString : String) (now tzMin : Int) : Option Int :=
  if dateString = "" then none
  else
    let datePart := headStr (splitOnChar 'T' dateString)
    match parseYMD datePart with
    | none => none
    | some dd =>
      let entryMs := dd * msPerDay
      let todayMs := localMidnightMs now tzMin
      some (max 0 (Int.fdiv (todayMs - entryMs) msPerDay))

/-- `calculateDaysBehind(endDate, today)` from `dateRangeData.js`: `0` for a
missing end date; otherwise both date strings are taken at midnight UTC
(`'T00:00:00Z'`) and the floored difference is clamped to a minimum of zero.
`none` models the `NaN` produced by an unparseable date. -/
def calculateDaysBehind (endDate today : String) : Option Int :=
  if endDate = "" then some 0
  else
    match parseYMD endDate, parseYMD today with
    | some ed, some td => some (max 0 (td - ed))
    | _, _ => none

/-! ## Score labels (`journalData.js` lines 11–104; the same four helpers
appear verbatim as private methods of `ListJournalEntriesTool`).

Scores are JS numbers, modelled as `Option Rat` (`none` = absent / not a
number). -/

/-- `⌊100·x + 1/2⌋` computed directly on the numerator and denominator
(`x = num/den`, `den > 0`, so `⌊100·x + 1/2⌋ = ⌊(200·num + den)/(2·den)⌋`):
both `Math.round(x * 100)` and the integer `toFixed(2)` rounds to. -/
def roundHundredths (x : Rat) : Int :=
  Int.fdiv (200 * x.num + x.den) (2 * x.den)

def toFixed2 (x : Rat) : String :=
  let n : Int := roundHundredths x
  let a := n.natAbs
  let body := toString (a / 100) ++ "." ++ padTwo (a % 100)
  if n < 0 then "-" ++ body else body

/-- `formatScoreLabel(label, score)`: `"<label> (<score.toFixed(2)>/1.0)"`. -/
def formatScoreLabel (label : String) (score : Rat) : String :=
  label ++ " (" ++ toFixed2 score ++ "/1.0)"

/-- `getDetailLevel(detailScore)`: a label for any numeric score in `[0, 1]`,
`null` otherwise. -/
def getDetailLevel (detailScore : Option Rat) : Option String :=
  match detailScore with
  | none => none
  | some s =>
    if s < 0 ∨ s > 1 then none
    else
      let label :=
        if s ≥ mkRat 75 100 then "High detail"
        else if s ≥ mkRat 45 100 then "Moderate detail"
        else "Brief detail"
      some (formatScoreLabel label s)

/-- `getMomentSignificance(keyMomentScore)`: `null` below the `0.55` publish
threshold, a tiered label otherwise. -/
def getMomentSignificance (keyMomentScore : Option Rat) : Option String :=
  match keyMomentScore with
  | none => none
  | some s =>
    if s < mkRat 55 100 then none
    else
      let label :=
        if s ≥ mkRat 75 100 then "Major key moment"
        else if s ≥ mkRat 65 100 then "Notable key moment"
        else "Minor key moment"
      some (formatScoreLabel label s)

/-- `getCrisisLevel(crisisIntensityScore)`: `null` below `0.55`, a tiered
label otherwise. -/
def getCrisisLevel (crisisIntensityScore : Option Rat) : Option String :=
  match crisisIntensityScore with
  | none => none
  | some s =>
    if s < mkRat 55 100 then none
    else
      let label :=
        if s ≥ mkRat 75 100 then "Crisis situation"
        else if s ≥ mkRat 65 100 then "High intensity"
        else "Elevated situation"
      some (formatScoreLabel label s)

/-- `getEffectiveStrategies(effectiveStrategiesScore)`: `null` below `0.55`,
a tiered label otherwise. -/
def getEffectiveStrategies (effectiveStrategiesScore : Option Rat) : Option String :=
  match effectiveStrategiesScore with
  | none => none
  | some s =>
    if s < mkRat 55 100 then none
    else
      let label :=
        if s ≥ mkRat 75 100 then "Highly effective strategies"
        else if s ≥ mkRat 65 100 then "Good strategies"
        else "Helpful strategies"
      some (formatScoreLabel label s)

/-! ## C4: relative day offsets -/

theorem localMidnightMs_utc (now : Int) :
    localMidnightMs now 0 = Int.fdiv now msPerDay * msPerDay := by
  simp [localMidnightMs]

/-- C4 counterexample: the day-offset computation is not normalized to
midnight UTC on both sides, and a missing date does not always yield null.
Concretely: (1) `calculateDaysBehind('', today)` returns `0`, not null;
(2) with the runtime timezone at UTC+10 (600 minutes east) and "now" at
2026-10-12T02:00:00Z (day number 20738), the date three days before the UTC
today, `2026-10-09`, yields an offset of 2 rather than 3, because "now" is
normalized to the *local* midnight `setHours(0,0,0,0)` produces, not to
midnight UTC. -/
theorem daysOffset_c4_counterexample :
    calculateDaysBehind "" "2026-10-12" = some 0
    ∧ calculateDaysAgo "2026-10-09" (20738 * 86400000 + 2 * 3600000) 600
        = some 2 := by
  constructor <;> decide

/-- C4 (amended): `calculateDaysAgo` normalizes the date to midnight UTC and
"now" to the runtime timezone's midnight — equal to midnight UTC when the
runtime offset is zero, in which case the result is exactly the floored
whole-day difference clamped to a minimum of zero — and yields null for a
missing or unparseable date; `calculateDaysBehind` computes the same clamped
floored difference with both its string inputs at midnight UTC, but returns
`0`, not null, for a missing date. -/
theorem daysOffset_c4_amended :
    (∀ now tzMin : Int, calculateDaysAgo "" now tzMin = none)
    ∧ (∀ (s : String) (now tzMin : Int),
        parseYMD (headStr (splitOnChar 'T' s)) = none →
        calculateDaysAgo s now tzMin = none)
    ∧ (∀ (s : String) (now dd : Int),
        parseYMD (headStr (splitOnChar 'T' s)) = some dd →
        calculateDaysAgo s now 0 = some (max 0 (Int.fdiv now msPerDay - dd)))
    ∧ (∀ (e t : String) (ed td : Int),
        parseYMD e = some ed → parseYMD t = some td →
        calculateDaysBehind e t = some (max 0 (td - ed)))
    ∧ (∀ t : String, calculateDaysBehind "" t = some 0) := by
  have hempty : parseYMD (headStr (splitOnChar 'T' "")) = none := by decide
  have hempty' : parseYMD "" = none := by decide
  have hD : (msPerDay : Int) ≠ 0 := by decide
  refine ⟨fun now tzMin => by simp [calculateDaysAgo], ?_, ?_, ?_, ?_⟩
  · intro s now tzMin h
    by_cases hs : s = ""
    · simp [calculateDaysAgo, hs]
    · simp only [calculateDaysAgo, if_neg hs, h]
  · intro s now dd h
    have hs : s ≠ "" := by
      intro hs
      rw [hs, hempty] at h
      cases h
    simp only [calculateDaysAgo, if_neg hs, h, localMidnightMs_utc]
    have harith :
        Int.fdiv now msPerDay * msPerDay - dd * msPerDay
          = (Int.fdiv now msPerDay - dd) * msPerDay := by ring
    rw [harith, Int.mul_fdiv_cancel _ hD]
  · intro e t ed td he ht
    have he' : e ≠ "" := by
      intro hs
      rw [hs, hempty'] at he
      cases he
    unfold calculateDaysBehind
    rw [if_neg he', he, ht]
  · intro t
    simp [calculateDaysBehind]

/-- Witness for C4 (amended), at a UTC runtime with "now" =
2026-10-12T02:00:00Z: today gives 0, three days before today gives 3, a
missing or unparseable date gives null; `calculateDaysBehind` gives 6 for a
six-day-old end date and 0 for a missing one. -/
theorem daysOffset_c4_amended_witness :
    calculateDaysAgo "" 1791770400000 0 = none
    ∧ calculateDaysAgo "not-a-date" 1791770400000 0 = none
    ∧ calculateDaysAgo "2026-10-12" 1791770400000 0 = some 0
    ∧ calculateDaysAgo "2026-10-09" 1791770400000 0 = some 3
    ∧ calculateDaysBehind "2026-10-06" "2026-10-12" = some 6
    ∧ calculateDaysBehind "" "2026-10-12" = some 0 := by
  refine ⟨daysOffset_c4_amended.1 1791770400000 0,
    daysOffset_c4_amended.2.1 "not-a-date" 1791770400000 0 (by decide),
    (daysOffset_c4_amended.2.2.1 "2026-10-12" 1791770400000 20738
      (by decide)).trans (by decide),
    (daysOffset_c4_amended.2.2.1 "2026-10-09" 1791770400000 20735
      (by decide)).trans (by decide),
    (daysOffset_c4_amended.2.2.2.1 "2026-10-06" "2026-10-12" 20732 20738
      (by decide) (by decide)).trans (by decide),
    daysOffset_c4_amended.2.2.2.2 "2026-10-12"⟩

/-! ## Journal search results (`transformJournalSearchResults`,
`journalData.js` lines 139–228) and the feed listing
(`ListJournalEntriesTool.transformFeedToList`). -/

/-- JS string truthiness for `a || b` chains: `undefined` and `''` fall
through. -/
def strTruthy : Option String → Option String
  | none => none
  | some s => if s = "" then none else some s

/-- JS numeric truthiness: `undefined` and `0` fall through. -/
def intTruthy : Option Int → Option Int
  | none => none
  | some n => if n = 0 then none else some n

/-- `snippet.replace(/<\/?mark>/g, '')`: a single left-to-right pass deleting
`<mark>` and `</mark>` occurrences. -/
def stripMarkAux : List Char → List Char
  | '<' :: 'm' :: 'a' :: 'r' :: 'k' :: '>' :: rest => stripMarkAux rest
  | '<' :: '/' :: 'm' :: 'a' :: 'r' :: 'k' :: '>' :: rest => stripMarkAux rest
  | c :: rest => c :: stripMarkAux rest
  | [] => []

def stripMarkTags (s : String) : String :=
  String.mk (stripMarkAux s.toList)

/-- The fields of `document.results` read by the search transform. -/
structure DocResults where
  shortTitle : Option String
  redactedSummary : Option String
  detailScore : Option Rat
  keyMomentScore : Option Rat
  crisisIntensityScore : Option Rat
  effectiveStrategiesScore : Option Rat

structure SearchDocument where
  journalEntryId : String
  date : String
  userName : Option String
  results : Option DocResults

structure SearchMetadata where
  rawSnippet : Option String
  snippet : Option String
  searchScore : Option Rat

structure SearchResultItem where
  document : SearchDocument
  searchMetadata : Option SearchMetadata

structure Pagination where
  total : Option Int

structure RawSearchResults where
  results : Option (List SearchResultItem)
  pagination : Option Pagination

/-- One transformed search/list item; `Option` fields are added to the JS
object only when the corresponding label is non-null. -/
structure TransformedItem where
  journalEntryId : String
  date : String
  daysAgo : Option Int
  authorName : String
  summary : String
  matchingChunk : String
  relevanceScore : Int
  detailLevel : Option String
  momentSignificance : Option String
  crisisLevel : Option String
  effectiveStrategies : Option String

/-- The per-item body of `transformJournalSearchResults`. -/
def transformSearchItem (item : SearchResultItem) (now tzMin : Int) :
    TransformedItem :=
  let document := item.document
  let md := item.searchMetadata
  let results := document.results
  { journalEntryId := document.journalEntryId
    date := document.date
    daysAgo := calculateDaysAgo document.date now tzMin
    authorName := (strTruthy document.userName).getD "Unknown"
    summary :=
      ((strTruthy (results.bind DocResults.shortTitle)).orElse
        (fun _ => strTruthy (results.bind DocResults.redactedSummary))).getD
        "No summary available"
    matchingChunk :=
      ((strTruthy (md.bind SearchMetadata.rawSnippet)).orElse
        (fun _ => strTruthy
          ((md.bind SearchMetadata.snippet).map stripMarkTags))).getD
        "No matching content"
    relevanceScore :=
      roundHundredths ((md.bind SearchMetadata.searchScore).getD 0)
    detailLevel := getDetailLevel (results.bind DocResults.detailScore)
    momentSignificance :=
      getMomentSignificance (results.bind DocResults.keyMomentScore)
    crisisLevel := getCrisisLevel (results.bind DocResults.crisisIntensityScore)
    effectiveStrategies :=
      getEffectiveStrategies
        (results.bind DocResults.effectiveStrategiesScore) }

/-- The output of `transformJournalSearchResults` and of
`ListJournalEntriesTool.execute` (which adds the truncation and time-range
fields to it). -/
structure SearchOutput where
  childName : String
  totalResults : Int
  results : List TransformedItem
  pagination : Option Pagination
  message : String
  truncated : Option Bool := none
  totalFound : Option Int := none
  timeRange : Option String := none
  dateRange : Option (String × String) := none

def searchResultsMessage (n : Nat) : String :=
  "Found " ++ toString n ++ " relevant entries. Use journal entry IDs for full details. Scoring fields help you decide which entries to retrieve: detailLevel (always present: Brief/Moderate/High), momentSignificance (≥0.55: Minor/Notable/Major key moment), crisisLevel (≥0.55: Elevated/High intensity/Crisis situation), effectiveStrategies (≥0.55: Helpful/Good/Highly effective strategies)."

/-- `transformJournalSearchResults(rawResults, childName)`. -/
def transformJournalSearchResults (rawResults : Option RawSearchResults)
    (childName : String) (now tzMin : Int) : SearchOutput :=
  match rawResults with
  | none =>
    { childName := childName, totalResults := 0, results := [],
      pagination := none, message := "No journal entries found" }
  | some raw =>
    match raw.results with
    | none =>
      { childName := childName, totalResults := 0, results := [],
        pagination := none, message := "No journal entries found" }
    | some items =>
      let transformedResults :=
        items.map (fun it => transformSearchItem it now tzMin)
      { childName := childName
        totalResults :=
          (intTruthy (raw.pagination.bind Pagination.total)).getD
            (transformedResults.length : Int)
        results := transformedResults
        pagination := raw.pagination
        message := searchResultsMessage transformedResults.length }

/-- `_calculateDateRange(timeRange)` of `ListJournalEntriesTool`. -/
def calculateDateRange (timeRange : String) (now : Int) : String × String :=
  let endDate := isoDateOfMs now
  let daysBack : Int :=
    if timeRange = "last_7_days" then 7
    else if timeRange = "last_14_days" then 14
    else if timeRange = "last_30_days" then 30
    else if timeRange = "last_60_days" then 60
    else 30
  (isoDateOfMs (now - daysBack * msPerDay), endDate)

/-- `ListJournalEntriesTool.execute` after the API response arrives: cap the
raw results at 100 entries, transform, then attach the truncation fields and
time-range info.  (The feed-based revision of the tool applies the identical
cap before its own transform.) -/
def executeListJournalEntries (timeRange : String)
    (response : RawSearchResults) (childName : String) (now tzMin : Int) :
    SearchOutput :=
  let dr := calculateDateRange timeRange now
  let totalFound : Nat := (response.results.map List.length).getD 0
  let truncated : Bool :=
    match response.results with
    | some rs => decide (rs.length > 100)
    | none => false
  let transformedResponse : RawSearchResults :=
    if truncated then
      { response with results := response.results.map (fun rs => rs.take 100) }
    else response
  let t0 := transformJournalSearchResults (some transformedResponse)
    childName now tzMin
  let t1 :=
    if truncated then
      { t0 with
        truncated := some true
        totalFound := some (totalFound : Int)
        message := "Found " ++ toString totalFound ++ " entries for "
          ++ timeRange
          ++ ". Showing first 100. Consider using a shorter timeRange for complete results." }
    else
      { t0 with
        message := "Found " ++ toString totalFound ++ " entries for "
          ++ timeRange ++ "." }
  { t1 with timeRange := some timeRange, dateRange := some dr }

/-- C2: when the raw response holds more than 100 entries, the tool returns
exactly the first 100 (transformed), sets `truncated`, reports the true total
in `totalFound` and advises a shorter `timeRange`; with 100 or fewer entries
everything is returned and the `truncated` flag is never set. -/
theorem listJournalEntries_c2 (timeRange childName : String)
    (items : List SearchResultItem) (pg : Option Pagination) (now tzMin : Int) :
    (items.length > 100 →
      (executeListJournalEntries timeRange
          { results := some items, pagination := pg } childName now tzMin).results
        = (items.take 100).map (fun it => transformSearchItem it now tzMin)
      ∧ (executeListJournalEntries timeRange
          { results := some items, pagination := pg } childName now
          tzMin).results.length = 100
      ∧ (executeListJournalEntries timeRange
          { results := some items, pagination := pg } childName now
          tzMin).truncated = some true
      ∧ (executeListJournalEntries timeRange
          { results := some items, pagination := pg } childName now
          tzMin).totalFound = some (items.length : Int)
      ∧ (executeListJournalEntries timeRange
          { results := some items, pagination := pg } childName now
          tzMin).message
        = "Found " ++ toString items.length ++ " entries for " ++ timeRange
          ++ ". Showing first 100. Consider using a shorter timeRange for complete results.")
    ∧ (items.length ≤ 100 →
      (executeListJournalEntries timeRange
          { results := some items, pagination := pg } childName now tzMin).results
        = items.map (fun it => transformSearchItem it now tzMin)
      ∧ (executeListJournalEntries timeRange
          { results := some items, pagination := pg } childName now
          tzMin).results.length = items.length
      ∧ (executeListJournalEntries timeRange
          { results := some items, pagination := pg } childName now
          tzMin).truncated = none) := by
  constructor
  · intro h
    have hdec : decide (items.length > 100) = true := by simpa using h
    simp [executeListJournalEntries, hdec, transformJournalSearchResults,
      List.length_take]
    omega
  · intro h
    have hdec : decide (items.length > 100) = false := by simpa using h
    simp [executeListJournalEntries, hdec, transformJournalSearchResults]

/-- A minimal concrete raw search item. -/
def sampleItem : SearchResultItem :=
  { document :=
      { journalEntryId := "je1", date := "2026-10-09",
        userName := some "Dana", results := none }
    searchMetadata := none }

/-- Witness for C2: a 150-item raw response truncates to exactly 100 items
with `truncated = true` and reported total 150; a 2-item response passes
through untouched with no `truncated` flag. -/
theorem listJournalEntries_c2_witness :
    (executeListJournalEntries "last_30_days"
        { results := some (List.replicate 150 sampleItem), pagination := none }
        "Ava" 1791770400000 0).results.length = 100
    ∧ (executeListJournalEntries "last_30_days"
        { results := some (List.replicate 150 sampleItem), pagination := none }
        "Ava" 1791770400000 0).truncated = some true
    ∧ (executeListJournalEntries "last_30_days"
        { results := some (List.replicate 150 sampleItem), pagination := none }
        "Ava" 1791770400000 0).totalFound = some 150
    ∧ (executeListJournalEntries "last_30_days"
        { results := some (List.replicate 2 sampleItem), pagination := none }
        "Ava" 1791770400000 0).results.length = 2
    ∧ (executeListJournalEntries "last_30_days"
        { results := some (List.replicate 2 sampleItem), pagination := none }
        "Ava" 1791770400000 0).truncated = none := by
  have h1 := (listJournalEntries_c2 "last_30_days" "Ava"
    (List.replicate 150 sampleItem) none 1791770400000 0).1 (by simp)
  have h2 := (listJournalEntries_c2 "last_30_days" "Ava"
    (List.replicate 2 sampleItem) none 1791770400000 0).2 (by simp)
  refine ⟨h1.2.1, h1.2.2.1, ?_, by simpa using h2.2.1, h2.2.2⟩
  simpa using h1.2.2.2.1

/-- A raw feed entry, as consumed by
`ListJournalEntriesTool.transformFeedToList`. -/
structure FeedItem where
  journalEntryId : String
  epoch : Int
  userName : Option String
  shortTitle : Option String
  summary : Option String
  detailScore : Option Rat
  keyMomentScore : Option Rat
  crisisIntensityScore : Option Rat
  effectiveStrategiesScore : Option Rat

/-- One transformed feed-listing item. -/
structure FeedListItem where
  journalEntryId : String
  date : String
  daysAgo : Int
  authorName : String
  summary : String
  excerpt : String
  detailLevel : Option String
  momentSignificance : Option String
  crisisLevel : Option String
  effectiveStrategies : Option String

/-- The per-item body of `transformFeedToList` (feed revision of
`listJournalEntries.js`): epoch seconds become a UTC `YYYY-MM-DD` date, and
the same four score labels are attached as for search results. -/
def transformFeedItem (item : FeedItem) (now : Int) : FeedListItem :=
  { journalEntryId := item.journalEntryId
    date := isoDateOfMs (item.epoch * 1000)
    daysAgo := Int.fdiv (now - item.epoch * 1000) msPerDay
    authorName := (strTruthy item.userName).getD "Unknown"
    summary := (strTruthy item.shortTitle).getD "No summary available"
    excerpt := (strTruthy item.summary).getD "No excerpt available"
    detailLevel := getDetailLevel item.detailScore
    momentSignificance := getMomentSignificance item.keyMomentScore
    crisisLevel := getCrisisLevel item.crisisIntensityScore
    effectiveStrategies := getEffectiveStrategies item.effectiveStrategiesScore }

/-- C3: in both the search-result and feed-listing item transforms, the three
gated dimensions (moment significance, crisis level, effective strategies)
are entirely absent whenever the score is missing or below 0.55, and when
present carry the string `"<Tier Label> (<score to 2 decimals>/1.0)"` with
tiers at ≥ 0.75 / ≥ 0.65 / else; the detail-level dimension publishes its
label for every numeric score in `[0, 1]` with tiers High ≥ 0.75,
Moderate ≥ 0.45, else Brief. -/
theorem scoreLabels_c3 :
    (∀ s : Rat, s < mkRat 55 100 →
      getMomentSignificance (some s) = none
      ∧ getCrisisLevel (some s) = none
      ∧ getEffectiveStrategies (some s) = none)
    ∧ (getMomentSignificance none = none ∧ getCrisisLevel none = none
      ∧ getEffectiveStrategies none = none)
    ∧ (∀ s : Rat, mkRat 55 100 ≤ s →
      getMomentSignificance (some s)
        = some ((if mkRat 75 100 ≤ s then "Major key moment"
            else if mkRat 65 100 ≤ s then "Notable key moment"
            else "Minor key moment") ++ " (" ++ toFixed2 s ++ "/1.0)")
      ∧ getCrisisLevel (some s)
        = some ((if mkRat 75 100 ≤ s then "Crisis situation"
            else if mkRat 65 100 ≤ s then "High intensity"
            else "Elevated situation") ++ " (" ++ toFixed2 s ++ "/1.0)")
      ∧ getEffectiveStrategies (some s)
        = some ((if mkRat 75 100 ≤ s then "Highly effective strategies"
            else if mkRat 65 100 ≤ s then "Good strategies"
            else "Helpful strategies") ++ " (" ++ toFixed2 s ++ "/1.0)"))
    ∧ (∀ s : Rat, 0 ≤ s → s ≤ 1 →
      getDetailLevel (some s)
        = some ((if mkRat 75 100 ≤ s then "High detail"
            else if mkRat 45 100 ≤ s then "Moderate detail"
            else "Brief detail") ++ " (" ++ toFixed2 s ++ "/1.0)"))
    ∧ (∀ (item : SearchResultItem) (now tzMin : Int),
      (transformSearchItem item now tzMin).momentSignificance
        = getMomentSignificance
            (item.document.results.bind DocResults.keyMomentScore)
      ∧ (transformSearchItem item now tzMin).crisisLevel
        = getCrisisLevel
            (item.document.results.bind DocResults.crisisIntensityScore)
      ∧ (transformSearchItem item now tzMin).effectiveStrategies
        = getEffectiveStrategies
            (item.document.results.bind DocResults.effectiveStrategiesScore)
      ∧ (transformSearchItem item now tzMin).detailLevel
        = getDetailLevel (item.document.results.bind DocResults.detailScore))
    ∧ (∀ (item : FeedItem) (now : Int),
      (transformFeedItem item now).momentSignificance
        = getMomentSignificance item.keyMomentScore
      ∧ (transformFeedItem item now).crisisLevel
        = getCrisisLevel item.crisisIntensityScore
      ∧ (transformFeedItem item now).effectiveStrategies
        = getEffectiveStrategies item.effectiveStrategiesScore
      ∧ (transformFeedItem item now).detailLevel
        = getDetailLevel item.detailScore) := by
  refine ⟨?_, ⟨rfl, rfl, rfl⟩, ?_, ?_, fun item now tzMin => ⟨rfl, rfl, rfl, rfl⟩,
    fun item now => ⟨rfl, rfl, rfl, rfl⟩⟩
  · intro s hs
    have hs' : ¬ mkRat 55 100 ≤ s := not_le.mpr hs
    refine ⟨?_, ?_, ?_⟩ <;>
      simp [getMomentSignificance, getCrisisLevel, getEffectiveStrategies,
        formatScoreLabel, not_le.mpr hs]
  · intro s hs
    have hs' : ¬ s < mkRat 55 100 := not_lt.mpr hs
    refine ⟨?_, ?_, ?_⟩ <;>
      simp [getMomentSignificance, getCrisisLevel, getEffectiveStrategies,
        formatScoreLabel, hs', ge_iff_le]
  · intro s h0 h1
    have hn : ¬ (s < 0 ∨ s > 1) := by
      push_neg
      exact ⟨h0, h1⟩
    simp [getDetailLevel, formatScoreLabel, hn, ge_iff_le]

/-- Witness for C3, matching the spec's own examples: crisis 0.80 publishes
`"Crisis situation (0.80/1.0)"`, crisis 0.50 is absent, moment 0.68 publishes
the middle tier, and detail 0.30 still publishes its (Brief) label. -/
theorem scoreLabels_c3_witness :
    getCrisisLevel (some (mkRat 80 100)) = some "Crisis situation (0.80/1.0)"
    ∧ getCrisisLevel (some (mkRat 50 100)) = none
    ∧ getMomentSignificance (some (mkRat 68 100))
        = some "Notable key moment (0.68/1.0)"
    ∧ getDetailLevel (some (mkRat 30 100)) = some "Brief detail (0.30/1.0)"
    ∧ (transformFeedItem
        { journalEntryId := "je2", epoch := 1791763200, userName := none,
          shortTitle := none, summary := none, detailScore := some (mkRat 30 100),
          keyMomentScore := some (mkRat 50 100),
          crisisIntensityScore := some (mkRat 80 100),
          effectiveStrategiesScore := none }
        1791770400000).crisisLevel = some "Crisis situation (0.80/1.0)" := by
  have htop := (scoreLabels_c3.2.2.1 (mkRat 80 100) (by decide)).2.1
  have hmid := (scoreLabels_c3.2.2.1 (mkRat 68 100) (by decide)).1
  have hlow := (scoreLabels_c3.1 (mkRat 50 100) (by decide)).2.1
  have hdet := scoreLabels_c3.2.2.2.1 (mkRat 30 100) (by decide) (by decide)
  have hfeed := (scoreLabels_c3.2.2.2.2.2
    { journalEntryId := "je2", epoch := 1791763200, userName := none,
      shortTitle := none, summary := none, detailScore := some (mkRat 30 100),
      keyMomentScore := some (mkRat 50 100),
      crisisIntensityScore := some (mkRat 80 100),
      effectiveStrategiesScore := none }
    1791770400000).2.1
  exact ⟨htop.trans (by decide), hlow, hmid.trans (by decide),
    hdet.trans (by decide), hfeed.trans (htop.trans (by decide))⟩

/-! ## Village roster (`listVillageMembers.js`) -/

structure RawInvitationDetails where
  sentDate : Option String
  expirationDate : Option String
  acceptedDate : Option String
  isExpired : Option Bool

structure RawActivitySummary where
  lastActiveDate : Option String
  daysSinceLastActivity : Option Int
  totalDaysActive : Option Int

structure RawMember where
  name : Option String
  fullName : Option String
  role : Option String
  caregiverType : Option String
  inviteStatus : Option String
  journalEntryCount : Option Int
  joinedDate : Option String
  createdAt : Option String
  invitationDetails : Option RawInvitationDetails
  activitySummary : Option RawActivitySummary

structure RawVillageResponse where
  members : Option (List RawMember)

structure InvitationDetailsOut where
  sentDate : Option String
  expirationDate : Option String
  acceptedDate : Option String
  isExpired : Bool

structure Member where
  name : String
  role : String
  status : String
  journalEntryCount : Int
  joinedDate : Option String
  invitationDetails : Option InvitationDetailsOut
  activitySummary : Option RawActivitySummary

/-- The per-member body of `transformVillageMembers`. -/
def transformMember (includeInvitationDetails : Bool) (m : RawMember) :
    Member :=
  { name := ((strTruthy m.name).orElse
      (fun _ => strTruthy m.fullName)).getD "Unknown"
    role := ((strTruthy m.role).orElse
      (fun _ => strTruthy m.caregiverType)).getD "Caregiver"
    status := (strTruthy m.inviteStatus).getD "active"
    journalEntryCount := m.journalEntryCount.getD 0
    joinedDate := (strTruthy m.joinedDate).orElse (fun _ => m.createdAt)
    invitationDetails :=
      match includeInvitationDetails, m.invitationDetails with
      | true, some d =>
        some { sentDate := d.sentDate, expirationDate := d.expirationDate,
               acceptedDate := d.acceptedDate,
               isExpired := d.isExpired.getD false }
      | _, _ => none
    activitySummary := m.activitySummary }

/-- The JS sort comparator: accepted first, then pending, then everything
else; ties fall through to journal entry count descending. -/
def memberCompare (a b : Member) : Int :=
  if a.status ≠ b.status then
    if a.status = "accepted" then -1
    else if b.status = "accepted" then 1
    else if a.status = "pending" then -1
    else if b.status = "pending" then 1
    else b.journalEntryCount - a.journalEntryCount
  else b.journalEntryCount - a.journalEntryCount

def memberLe (a b : Member) : Bool := memberCompare a b ≤ 0

/-- The status precedence the comparator implements: accepted = 0,
pending = 1, everything else = 2. -/
def statusRank (m : Member) : Nat :=
  if m.status = "accepted" then 0
  else if m.status = "pending" then 1
  else 2

/-- The total preorder the roster ends up sorted by: status precedence
first, then journal entry count descending. -/
def memberLexLe (a b : Member) : Prop :=
  statusRank a < statusRank b
  ∨ (statusRank a = statusRank b ∧ b.journalEntryCount ≤ a.journalEntryCount)

theorem memberLe_iff (a b : Member) :
    memberLe a b = true ↔ memberLexLe a b := by
  have hap : ("accepted" : String) ≠ "pending" := by decide
  unfold memberLe memberCompare memberLexLe statusRank
  by_cases hab : a.status = b.status <;>
    by_cases ha : a.status = "accepted" <;>
    by_cases hb : b.status = "accepted" <;>
    by_cases hap2 : a.status = "pending" <;>
    by_cases hbp : b.status = "pending" <;>
    simp_all <;> omega

theorem memberLe_trans (a b c : Member) :
    memberLe a b = true → memberLe b c = true → memberLe a c = true := by
  rw [memberLe_iff, memberLe_iff, memberLe_iff]
  unfold memberLexLe
  omega

theorem memberLe_total (a b : Member) :
    (memberLe a b || memberLe b a) = true := by
  by_cases h : memberLe a b = true
  · simp [h]
  · have hf : memberLe a b = false := by simpa using h
    have h' : ¬ memberLexLe a b := by
      rw [← memberLe_iff, hf]
      simp
    have hba : memberLexLe b a := by
      unfold memberLexLe at h' ⊢
      omega
    rw [hf, (memberLe_iff b a).mpr hba]
    simp

structure VillageOutput where
  childName : String
  totalMembers : Nat
  statusSummary : String → Nat
  members : List Member
  message : String

def emptyVillage (childName : String) : VillageOutput :=
  { childName := childName, totalMembers := 0, statusSummary := fun _ => 0,
    members := [],
    message := "Found 0 village members for " ++ childName
      ++ ". 0 accepted, 0 pending invitations, 0 expired invitations." }

/-- `transformVillageMembers(rawResponse, childName, includeInvitationDetails)`
from `listVillageMembers.js`.  The JS `statusCounts` object is modelled
extensionally as a count function, and `Array.prototype.sort` (stable since
ES2019) as a stable merge sort under the comparator. -/
def transformVillageMembers (raw : Option RawVillageResponse)
    (childName : String) (includeInvitationDetails : Bool) : VillageOutput :=
  match raw with
  | none => emptyVillage childName
  | some r =>
    match r.members with
    | none => emptyVillage childName
    | some ms =>
      if ms.length = 0 then emptyVillage childName
      else
        let members :=
          List.insertionSort (fun a b => memberLe a b = true)
            (ms.map (transformMember includeInvitationDetails))
        let counts := fun s => (members.filter (fun m => m.status = s)).length
        { childName := childName
          totalMembers := members.length
          statusSummary := counts
          members := members
          message := "Found " ++ toString members.length
            ++ " village members for " ++ childName ++ ". "
            ++ toString (counts "accepted") ++ " accepted, "
            ++ toString (counts "pending") ++ " pending invitations, "
            ++ toString (counts "expired") ++ " expired invitations." }

/-- The claim's example roster: statuses/counts
`[expired/10, pending/0, accepted/5, accepted/50, pending/2]`. -/
def exampleRoster : List RawMember :=
  [{ name := some "Expired User", fullName := none, role := none,
     caregiverType := none, inviteStatus := some "expired",
     journalEntryCount := some 10, joinedDate := none, createdAt := none,
     invitationDetails := none, activitySummary := none },
   { name := some "Pending User", fullName := none, role := none,
     caregiverType := none, inviteStatus := some "pending",
     journalEntryCount := some 0, joinedDate := none, createdAt := none,
     invitationDetails := none, activitySummary := none },
   { name := some "Low Activity", fullName := none, role := none,
     caregiverType := none, inviteStatus := some "accepted",
     journalEntryCount := some 5, joinedDate := none, createdAt := none,
     invitationDetails := none, activitySummary := none },
   { name := some "High Activity", fullName := none, role := none,
     caregiverType := none, inviteStatus := some "accepted",
     journalEntryCount := some 50, joinedDate := none, createdAt := none,
     invitationDetails := none, activitySummary := none },
   { name := some "Pending Two", fullName := none, role := none,
     caregiverType := none, inviteStatus := some "pending",
     journalEntryCount := some 2, joinedDate := none, createdAt := none,
     invitationDetails := none, activitySummary := none }]

/-- C9: the returned roster is a permutation of the transformed input sorted
by status precedence (accepted, then pending, then everything else) and,
within equal precedence, by journal entry count descending; on the claim's
example the order is
`[accepted/50, accepted/5, pending/2, pending/0, expired/10]`. -/
theorem villageSort_c9 (includeInvitationDetails : Bool)
    (ms : List RawMember) (childName : String) (h : ms ≠ []) :
    (transformVillageMembers (some { members := some ms }) childName
        includeInvitationDetails).members.Perm
      (ms.map (transformMember includeInvitationDetails))
    ∧ (transformVillageMembers (some { members := some ms }) childName
        includeInvitationDetails).members.Pairwise memberLexLe
    ∧ (transformVillageMembers (some { members := some exampleRoster }) "Ava"
        true).members.map (fun m => (m.status, m.journalEntryCount))
      = [("accepted", 50), ("accepted", 5), ("pending", 2), ("pending", 0),
         ("expired", 10)] := by
  have hlen : ¬ ms.length = 0 := fun hl => h (List.length_eq_zero.mp hl)
  refine ⟨?_, ?_, by decide⟩
  · simp only [transformVillageMembers, hlen, if_false]
    exact List.perm_insertionSort _ _
  · simp only [transformVillageMembers, hlen, if_false]
    haveI : IsTotal Member fun a b => memberLe a b = true :=
      ⟨fun a b => by
        have := memberLe_total a b
        rcases Bool.or_eq_true_iff.mp this with h1 | h1
        · exact Or.inl h1
        · exact Or.inr h1⟩
    haveI : IsTrans Member fun a b => memberLe a b = true :=
      ⟨fun a b c => memberLe_trans a b c⟩
    exact (List.sorted_insertionSort _ _).imp
      (fun hab => (memberLe_iff _ _).mp hab)

/-- Witness for C9: the example roster is a permutation of its transforms,
is sorted by the roster order, and realizes the claim's expected order. -/
theorem villageSort_c9_witness :
    (transformVillageMembers (some { members := some exampleRoster }) "Ava"
        true).members.Perm
      (exampleRoster.map (transformMember true))
    ∧ (transformVillageMembers (some { members := some exampleRoster }) "Ava"
        true).members.Pairwise memberLexLe
    ∧ (transformVillageMembers (some { members := some exampleRoster }) "Ava"
        true).members.map (fun m => (m.status, m.journalEntryCount))
      = [("accepted", 50), ("accepted", 5), ("pending", 2), ("pending", 0),
         ("expired", 10)] :=
  villageSort_c9 true exampleRoster "Ava"
    (by unfold exampleRoster; exact List.cons_ne_nil _ _)

/-! ## Session store (`sessionManager.js`)

Sessions live in a `Map` keyed by session id, modelled as an
insertion-ordered association list with set-or-replace insertion.  ISO
timestamp strings are modelled by their epoch milliseconds; the generated
session id and every `Date.now()` read are explicit parameters.  The cached
children list is modelled as id/name pairs. -/

structure Session where
  sessionId : String
  userId : String
  selectedChildId : Option String
  selectedChildName : Option String
  childrenCache : Option (List (String × String))
  createdAt : Int
  lastActivity : Int
deriving DecidableEq

abbrev SessionStore := List (String × Session)

/-- `Map.set`: replace in place when the key exists, else append. -/
def storeSet (store : SessionStore) (sid : String) (s : Session) :
    SessionStore :=
  if store.any (fun p => p.1 = sid) then
    store.map (fun p => if p.1 = sid then (sid, s) else p)
  else store ++ [(sid, s)]

def lookupSession (store : SessionStore) (sid : String) : Option Session :=
  (store.find? (fun p => p.1 = sid)).map Prod.snd

/-- `createSession(userId)`: a fresh session with both selected-child fields
null and both timestamps "now"; the generated id is a parameter. -/
def createSession (store : SessionStore) (userId sid : String) (now : Int) :
    SessionStore :=
  storeSet store sid
    { sessionId := sid, userId := userId, selectedChildId := none,
      selectedChildName := none, childrenCache := none, createdAt := now,
      lastActivity := now }

/-- `getSession(sessionId)`: throws `Session not found` when absent,
otherwise refreshes `lastActivity` and returns the session. -/
def getSessionE (store : SessionStore) (sid : String) (now : Int) :
    Except String (Session × SessionStore) :=
  match lookupSession store sid with
  | none => Except.error "Session not found"
  | some s =>
    let s' := { s with lastActivity := now }
    Except.ok (s', storeSet store sid s')

/-- A partial-fields update (`Object.assign(session, updates, ...)`): the
outer `Option` is "field present in the updates object". -/
structure SessionUpdates where
  selectedChildId : Option (Option String) := none
  selectedChildName : Option (Option String) := none
  childrenCache : Option (Option (List (String × String))) := none

def applySessionUpdates (s : Session) (u : SessionUpdates) (now : Int) :
    Session :=
  { s with
    selectedChildId := u.selectedChildId.getD s.selectedChildId
    selectedChildName := u.selectedChildName.getD s.selectedChildName
    childrenCache := u.childrenCache.getD s.childrenCache
    lastActivity := now }

/-- `updateSession(sessionId, updates)`. -/
def updateSessionE (store : SessionStore) (sid : String) (u : SessionUpdates)
    (now : Int) : Except String (Session × SessionStore) :=
  match getSessionE store sid now with
  | Except.error e => Except.error e
  | Except.ok (s, store') =>
    let s' := applySessionUpdates s u now
    Except.ok (s', storeSet store' sid s')

/-- `setSelectedChild(sessionId, childId, childName)`: an `updateSession`
that always provides both selected-child fields. -/
def setSelectedChildE (store : SessionStore) (sid : String)
    (childId childName : Option String) (now : Int) :
    Except String (Session × SessionStore) :=
  updateSessionE store sid
    { selectedChildId := some childId, selectedChildName := some childName }
    now

/-- `getSelectedChild(sessionId)`: reads (and touches) the session, throwing
when no child is selected. -/
def getSelectedChildE (store : SessionStore) (sid : String) (now : Int) :
    Except String ((String × Option String) × SessionStore) :=
  match getSessionE store sid now with
  | Except.error e => Except.error e
  | Except.ok (s, store') =>
    match s.selectedChildId with
    | none =>
      Except.error "No child selected. Please use the \"select_child\" tool first."
    | some cid => Except.ok ((cid, s.selectedChildName), store')

/-- `cleanupOldSessions()`: drop every session whose `lastActivity` predates
now minus 24 hours. -/
def cleanupOldSessions (store : SessionStore) (now : Int) : SessionStore :=
  store.filter (fun p => ¬ p.2.lastActivity < now - 24 * 60 * 60 * 1000)

/-- One session-store operation, with every clock read and generated id made
explicit. -/
inductive StoreOp : Type where
  | create (userId sid : String) (now : Int)
  | get (sid : String) (now : Int)
  | update (sid : String) (u : SessionUpdates) (now : Int)
  | setChild (sid : String) (childId childName : Option String) (now : Int)
  | getChild (sid : String) (now : Int)
  | cleanup (now : Int)

/-- The store reached after an operation (a throwing operation other than the
initial lookup leaves the store as the lookup left it). -/
def applyStoreOp (store : SessionStore) : StoreOp → SessionStore
  | StoreOp.create userId sid now => createSession store userId sid now
  | StoreOp.get sid now =>
    match getSessionE store sid now with
    | Except.error _ => store
    | Except.ok (_, store') => store'
  | StoreOp.update sid u now =>
    match updateSessionE store sid u now with
    | Except.error _ => store
    | Except.ok (_, store') => store'
  | StoreOp.setChild sid cid cname now =>
    match setSelectedChildE store sid cid cname now with
    | Except.error _ => store
    | Except.ok (_, store') => store'
  | StoreOp.getChild sid now =>
    match getSelectedChildE store sid now with
    | Except.error _ =>
      match getSessionE store sid now with
      | Except.error _ => store
      | Except.ok (_, store') => store'
    | Except.ok (_, store') => store'
  | StoreOp.cleanup now => cleanupOldSessions store now

def applyStoreOps (ops : List StoreOp) : SessionStore :=
  ops.foldl applyStoreOp []

/-- The claimed invariant: the selected-child name is non-null only when the
selected-child id is non-null. -/
def sessionInv (s : Session) : Prop :=
  s.selectedChildName.isSome → s.selectedChildId.isSome

def storeInv (store : SessionStore) : Prop :=
  ∀ p ∈ store, sessionInv p.2

/-- An update payload that cannot break the invariant on any session: if it
sets a non-null name it also sets a non-null id, and if it nulls the id it
also nulls the name.  `setSelectedChild`'s repository caller
(`selectChild.js`) always passes both values from a resolved child. -/
def goodUpdates (u : SessionUpdates) : Prop :=
  (∀ v, u.selectedChildName = some (some v) → ∃ w, u.selectedChildId = some (some w))
  ∧ (u.selectedChildId = some none → u.selectedChildName = some none)

def goodOp : StoreOp → Prop
  | StoreOp.update _ u _ => goodUpdates u
  | StoreOp.setChild _ cid cname _ => cname.isSome → cid.isSome
  | _ => True

/-- C8 counterexample: the claim quantifies over every sequence of store
operations, but `updateSession` merges arbitrary partial fields; a name-only
update on a fresh session leaves the name non-null with the id null. -/
theorem sessionInv_c8_counterexample :
    ((lookupSession
        (applyStoreOps
          [StoreOp.create "u1" "s1" 0,
           StoreOp.update "s1" { selectedChildName := some (some "Bob") } 1])
        "s1").map Session.selectedChildName = some (some "Bob"))
    ∧ ((lookupSession
        (applyStoreOps
          [StoreOp.create "u1" "s1" 0,
           StoreOp.update "s1" { selectedChildName := some (some "Bob") } 1])
        "s1").map Session.selectedChildId = some none) := by
  constructor <;> decide

theorem storeInv_storeSet (store : SessionStore) (sid : String) (s : Session)
    (hst : storeInv store) (hs : sessionInv s) :
    storeInv (storeSet store sid s) := by
  intro p hp
  unfold storeSet at hp
  by_cases hany : store.any (fun p => p.1 = sid)
  · rw [if_pos hany] at hp
    obtain ⟨q, hq, hqe⟩ := List.mem_map.mp hp
    by_cases hqs : q.1 = sid
    · rw [if_pos hqs] at hqe
      rw [← hqe]
      exact hs
    · rw [if_neg hqs] at hqe
      rw [← hqe]
      exact hst q hq
  · rw [if_neg hany] at hp
    rcases List.mem_append.mp hp with hmem | hmem
    · exact hst p hmem
    · have : p = (sid, s) := by simpa using hmem
      rw [this]
      exact hs

theorem lookupSession_inv (store : SessionStore) (sid : String) (s : Session)
    (hst : storeInv store) (hfind : lookupSession store sid = some s) :
    sessionInv s := by
  unfold lookupSession at hfind
  cases hq : store.find? (fun p => p.1 = sid) with
  | none => rw [hq] at hfind; cases hfind
  | some q =>
    rw [hq] at hfind
    simp at hfind
    rw [← hfind]
    exact hst q (List.find?_mem hq)

theorem getSessionE_ok_inv (store : SessionStore) (sid : String) (now : Int)
    (s : Session) (st2 : SessionStore) (hst : storeInv store)
    (h : getSessionE store sid now = Except.ok (s, st2)) :
    sessionInv s ∧ storeInv st2 := by
  unfold getSessionE at h
  cases hfind : lookupSession store sid with
  | none => rw [hfind] at h; cases h
  | some s0 =>
    rw [hfind] at h
    simp only [Except.ok.injEq, Prod.mk.injEq] at h
    have hs0 : sessionInv s0 := lookupSession_inv _ _ _ hst hfind
    have hs0t : sessionInv { s0 with lastActivity := now } := hs0
    constructor
    · rw [← h.1]
      exact hs0t
    · rw [← h.2]
      exact storeInv_storeSet _ _ _ hst hs0t

theorem applySessionUpdates_inv (s : Session) (u : SessionUpdates) (now : Int)
    (hs : sessionInv s) (hu : goodUpdates u) :
    sessionInv (applySessionUpdates s u now) := by
  obtain ⟨hg1, hg2⟩ := hu
  unfold sessionInv applySessionUpdates at *
  cases hn : u.selectedChildName with
  | none =>
    cases hi : u.selectedChildId with
    | none => simpa [hn, hi] using hs
    | some iv =>
      cases iv with
      | none =>
        intro hns
        have := hg2 hi
        rw [this] at hn
        cases hn
      | some w => simp [hn, hi]
  | some nv =>
    cases nv with
    | none => simp [hn]
    | some v =>
      obtain ⟨w, hw⟩ := hg1 v hn
      simp [hn, hw]

theorem updateSessionE_ok_inv (store : SessionStore) (sid : String)
    (u : SessionUpdates) (now : Int) (s : Session) (st2 : SessionStore)
    (hst : storeInv store) (hu : goodUpdates u)
    (h : updateSessionE store sid u now = Except.ok (s, st2)) :
    storeInv st2 := by
  unfold updateSessionE at h
  cases hses : getSessionE store sid now with
  | error e => rw [hses] at h; cases h
  | ok pair =>
    obtain ⟨s0, store0⟩ := pair
    rw [hses] at h
    simp only [Except.ok.injEq, Prod.mk.injEq] at h
    obtain ⟨hs0, hst0⟩ := getSessionE_ok_inv _ _ _ _ _ hst hses
    rw [← h.2]
    exact storeInv_storeSet _ _ _ hst0
      (applySessionUpdates_inv _ _ _ hs0 hu)

theorem storeInv_applyStoreOp (store : SessionStore) (op : StoreOp)
    (hst : storeInv store) (hop : goodOp op) :
    storeInv (applyStoreOp store op) := by
  cases op with
  | create userId sid now =>
    exact storeInv_storeSet _ _ _ hst (fun h => by cases h)
  | get sid now =>
    simp only [applyStoreOp]
    cases hses : getSessionE store sid now with
    | error e => exact hst
    | ok pair =>
      obtain ⟨s0, store0⟩ := pair
      exact (getSessionE_ok_inv _ _ _ _ _ hst hses).2
  | update sid u now =>
    simp only [applyStoreOp]
    cases hrun : updateSessionE store sid u now with
    | error e => exact hst
    | ok pair =>
      obtain ⟨s0, store0⟩ := pair
      exact updateSessionE_ok_inv _ _ _ _ _ _ hst hop hrun
  | setChild sid cid cname now =>
    simp only [applyStoreOp, setSelectedChildE]
    have hgood : goodUpdates
        { selectedChildId := some cid, selectedChildName := some cname } := by
      constructor
      · intro v hv
        simp only [Option.some.injEq] at hv
        have hcn : cname.isSome := by rw [hv]; rfl
        obtain ⟨w, hw⟩ := Option.isSome_iff_exists.mp (hop hcn)
        exact ⟨w, by simp [hw]⟩
      · intro hi
        simp only [Option.some.injEq] at hi
        cases hcn : cname with
        | none => rfl
        | some v =>
          have : cid.isSome := hop (by rw [hcn]; rfl)
          rw [hi] at this
          cases this
    cases hrun : updateSessionE store sid
        { selectedChildId := some cid, selectedChildName := some cname } now with
    | error e => exact hst
    | ok pair =>
      obtain ⟨s0, store0⟩ := pair
      exact updateSessionE_ok_inv _ _ _ _ _ _ hst hgood hrun
  | getChild sid now =>
    simp only [applyStoreOp, getSelectedChildE]
    cases hses : getSessionE store sid now with
    | error e => exact hst
    | ok pair =>
      obtain ⟨s0, store0⟩ := pair
      have hinv0 := (getSessionE_ok_inv _ _ _ _ _ hst hses).2
      obtain ⟨sid0, uid0, scid, scn, cc, ca, la⟩ := s0
      cases scid with
      | none => exact hinv0
      | some cid => exact hinv0
  | cleanup now =>
    intro p hp
    exact hst p (List.mem_of_mem_filter hp)

/-- C8 (amended): starting from any store satisfying the invariant (in
particular the empty store, and every session `createSession` makes), any
sequence of store operations preserves "selected-child name non-null only
when selected-child id non-null", provided each `updateSession` payload that
sets a non-null name also sets a non-null id and never nulls the id while
keeping a name, and each `setSelectedChild` passes a non-null id whenever it
passes a non-null name — which is how every repository caller invokes them.
An unrestricted `updateSession` (see the counterexample) can break the
invariant. -/
theorem sessionStore_c8_amended (ops : List StoreOp) (store : SessionStore)
    (hst : storeInv store) (hops : ∀ op ∈ ops, goodOp op) :
    storeInv (ops.foldl applyStoreOp store) := by
  induction ops generalizing store with
  | nil => exact hst
  | cons op rest ih =>
    exact ih (applyStoreOp store op)
      (storeInv_applyStoreOp store op hst (hops op (List.mem_cons_self op rest)))
      (fun o ho => hops o (List.mem_cons_of_mem op ho))

/-- Witness for C8 (amended): a create / select-child / read / sweep
sequence, run from the empty store, keeps the invariant. -/
theorem sessionStore_c8_amended_witness :
    storeInv
      ([StoreOp.create "u1" "s1" 0,
        StoreOp.setChild "s1" (some "c1") (some "Child One") 1,
        StoreOp.get "s1" 2,
        StoreOp.getChild "s1" 3,
        StoreOp.cleanup 4].foldl applyStoreOp []) :=
  sessionStore_c8_amended _ []
    (fun p hp => absurd hp (List.not_mem_nil p))
    (by
      intro op hop
      fin_cases hop <;> simp [goodOp])

/-! ## Tool dispatch registry (`ToolRegistry`)

Each tool class carries a static definition `{name, description, inputSchema}`;
registration binds it to a handler in a `Map` keyed by name (modelled as an
insertion-ordered list with set-or-replace).  Handlers are the tools'
`execute` methods — external, effectful code — so the registry is
parameterized by a handler assignment rather than stubbing them. -/

def Handler : Type := JsonVal → Session → Except String JsonVal

structure ToolDefinition where
  name : String
  description : String
  inputSchema : JsonVal

structure RegisteredTool where
  defn : ToolDefinition
  handler : Handler

/-- The public descriptor `getToolDefinitions` exposes: no handler field. -/
structure ToolPublic where
  name : String
  description : String
  inputSchema : JsonVal

/-- `registerTool`: `this.tools.set(def.name, def)`. -/
def registerTool (tools : List RegisteredTool) (t : RegisteredTool) :
    List RegisteredTool :=
  if tools.any (fun x => x.defn.name = t.defn.name) then
    tools.map (fun x => if x.defn.name = t.defn.name then t else x)
  else tools ++ [t]

/-- The static definitions of the eighteen tool classes the registry
imports. -/
structure RegistryDefs where
  listChildren : ToolDefinition
  selectChild : ToolDefinition
  listVillageMembers : ToolDefinition
  getBehaviorScores : ToolDefinition
  getDateRangeMetadata : ToolDefinition
  searchJournals : ToolDefinition
  getJournalEntry : ToolDefinition
  getJournalDetails : ToolDefinition
  listJournalEntries : ToolDefinition
  getOverviewAnalysis : ToolDefinition
  getBehaviorAnalysis : ToolDefinition
  getMedicationAnalysis : ToolDefinition
  getMedicationDetailedAnalysis : ToolDefinition
  getJournalAnalysis : ToolDefinition
  getHashtagAnalysis : ToolDefinition
  getVersionInfo : ToolDefinition
  getProductHelp : ToolDefinition
  submitProductFeedback : ToolDefinition

/-- The `name` each tool class declares in its static `definition` getter. -/
def NamesCorrect (d : RegistryDefs) : Prop :=
  d.listChildren.name = "list_children"
  ∧ d.selectChild.name = "select_child"
  ∧ d.listVillageMembers.name = "list_village_members"
  ∧ d.getBehaviorScores.name = "get_behavior_scores"
  ∧ d.getDateRangeMetadata.name = "get_date_range_metadata"
  ∧ d.searchJournals.name = "search_journal_entries"
  ∧ d.getJournalEntry.name = "get_journal_entry"
  ∧ d.getJournalDetails.name = "get_journal_entry_analysis"
  ∧ d.listJournalEntries.name = "list_journal_entries"
  ∧ d.getOverviewAnalysis.name = "get_overview_analysis"
  ∧ d.getBehaviorAnalysis.name = "get_behavior_analysis"
  ∧ d.getMedicationAnalysis.name = "get_medication_analysis"
  ∧ d.getMedicationDetailedAnalysis.name = "get_medication_detailed_analysis"
  ∧ d.getJournalAnalysis.name = "get_journal_analysis"
  ∧ d.getHashtagAnalysis.name = "get_hashtag_analysis"
  ∧ d.getVersionInfo.name = "get_version_info"
  ∧ d.getProductHelp.name = "get_product_help"
  ∧ d.submitProductFeedback.name = "submit_product_feedback"

/-- `ToolRegistry` construction (`registerTools` of the current revision):
every tool is registered in a fixed order, `selectChild` only when
`mcpOptions.allowChildSwitching !== false` (`none` models an absent
option). -/
def mkRegistry (allowChildSwitching : Option Bool) (d : RegistryDefs)
    (h : String → Handler) : List RegisteredTool :=
  let reg := fun tools (td : ToolDefinition) =>
    registerTool tools { defn := td, handler := h td.name }
  let t := reg [] d.listChildren
  let t := if allowChildSwitching ≠ some false then reg t d.selectChild else t
  let t := reg t d.listVillageMembers
  let t := reg t d.getBehaviorScores
  let t := reg t d.getDateRangeMetadata
  let t := reg t d.searchJournals
  let t := reg t d.getJournalEntry
  let t := reg t d.getJournalDetails
  let t := reg t d.listJournalEntries
  let t := reg t d.getOverviewAnalysis
  let t := reg t d.getBehaviorAnalysis
  let t := reg t d.getMedicationAnalysis
  let t := reg t d.getMedicationDetailedAnalysis
  let t := reg t d.getJournalAnalysis
  let t := reg t d.getHashtagAnalysis
  let t := reg t d.getVersionInfo
  let t := reg t d.getProductHelp
  let t := reg t d.submitProductFeedback
  t

/-- `getToolDefinitions()`: name, description and input schema of every
registered tool, in registration order, never the handler. -/
def getToolDefinitions (tools : List RegisteredTool) : List ToolPublic :=
  tools.map (fun t =>
    { name := t.defn.name, description := t.defn.description,
      inputSchema := t.defn.inputSchema })

def publicOf (td : ToolDefinition) : ToolPublic :=
  { name := td.name, description := td.description,
    inputSchema := td.inputSchema }

/-- The descriptor list of the switching-enabled registry, in registration
order. -/
def expectedDefsEnabled (d : RegistryDefs) : List ToolPublic :=
  [publicOf d.listChildren, publicOf d.selectChild,
   publicOf d.listVillageMembers, publicOf d.getBehaviorScores,
   publicOf d.getDateRangeMetadata, publicOf d.searchJournals,
   publicOf d.getJournalEntry, publicOf d.getJournalDetails,
   publicOf d.listJournalEntries, publicOf d.getOverviewAnalysis,
   publicOf d.getBehaviorAnalysis, publicOf d.getMedicationAnalysis,
   publicOf d.getMedicationDetailedAnalysis, publicOf d.getJournalAnalysis,
   publicOf d.getHashtagAnalysis, publicOf d.getVersionInfo,
   publicOf d.getProductHelp, publicOf d.submitProductFeedback]

/-- The descriptor list of the switching-disabled registry: the same minus
`select_child`. -/
def expectedDefsDisabled (d : RegistryDefs) : List ToolPublic :=
  [publicOf d.listChildren,
   publicOf d.listVillageMembers, publicOf d.getBehaviorScores,
   publicOf d.getDateRangeMetadata, publicOf d.searchJournals,
   publicOf d.getJournalEntry, publicOf d.getJournalDetails,
   publicOf d.listJournalEntries, publicOf d.getOverviewAnalysis,
   publicOf d.getBehaviorAnalysis, publicOf d.getMedicationAnalysis,
   publicOf d.getMedicationDetailedAnalysis, publicOf d.getJournalAnalysis,
   publicOf d.getHashtagAnalysis, publicOf d.getVersionInfo,
   publicOf d.getProductHelp, publicOf d.submitProductFeedback]

/-- C5: `select_child` is registered iff `allowChildSwitching !== false`,
every other tool is always registered, and `getToolDefinitions` returns, in
registration order, exactly each registered tool's name, description and
input schema (never the bound handler) — so the enabled registry lists
exactly one more tool (18) than the disabled one (17). -/
theorem registry_c5 (cfg : Option Bool) (d : RegistryDefs)
    (h : String → Handler) (hn : NamesCorrect d) :
    (("select_child" ∈ (mkRegistry cfg d h).map (fun t => t.defn.name))
      ↔ cfg ≠ some false)
    ∧ getToolDefinitions (mkRegistry cfg d h)
        = (if cfg = some false then expectedDefsDisabled d
           else expectedDefsEnabled d)
    ∧ (mkRegistry cfg d h).length = (if cfg = some false then 17 else 18) := by
  obtain ⟨h1, h2, h3, h4, h5, h6, h7, h8, h9, h10, h11, h12, h13, h14, h15,
    h16, h17, h18⟩ := hn
  rcases cfg with _ | b
  · refine ⟨?_, ?_, ?_⟩ <;>
      simp +decide [mkRegistry, registerTool, getToolDefinitions, publicOf,
        expectedDefsEnabled, h1, h2, h3, h4, h5, h6, h7, h8, h9, h10, h11,
        h12, h13, h14, h15, h16, h17, h18]
  · cases b
    · refine ⟨?_, ?_, ?_⟩ <;>
        simp +decide [mkRegistry, registerTool, getToolDefinitions, publicOf,
          expectedDefsDisabled, h1, h2, h3, h4, h5, h6, h7, h8, h9, h10, h11,
          h12, h13, h14, h15, h16, h17, h18]
    · refine ⟨?_, ?_, ?_⟩ <;>
        simp +decide [mkRegistry, registerTool, getToolDefinitions, publicOf,
          expectedDefsEnabled, h1, h2, h3, h4, h5, h6, h7, h8, h9, h10, h11,
          h12, h13, h14, h15, h16, h17, h18]

/-- A concrete definitions fixture carrying the real tool names. -/
def demoDefs : RegistryDefs :=
  { listChildren := ⟨"list_children", "d1", JsonVal.jnull⟩
    selectChild := ⟨"select_child", "d2", JsonVal.jnull⟩
    listVillageMembers := ⟨"list_village_members", "d3", JsonVal.jnull⟩
    getBehaviorScores := ⟨"get_behavior_scores", "d4", JsonVal.jnull⟩
    getDateRangeMetadata := ⟨"get_date_range_metadata", "d5", JsonVal.jnull⟩
    searchJournals := ⟨"search_journal_entries", "d6", JsonVal.jnull⟩
    getJournalEntry := ⟨"get_journal_entry", "d7", JsonVal.jnull⟩
    getJournalDetails := ⟨"get_journal_entry_analysis", "d8", JsonVal.jnull⟩
    listJournalEntries := ⟨"list_journal_entries", "d9", JsonVal.jnull⟩
    getOverviewAnalysis := ⟨"get_overview_analysis", "d10", JsonVal.jnull⟩
    getBehaviorAnalysis := ⟨"get_behavior_analysis", "d11", JsonVal.jnull⟩
    getMedicationAnalysis := ⟨"get_medication_analysis", "d12", JsonVal.jnull⟩
    getMedicationDetailedAnalysis :=
      ⟨"get_medication_detailed_analysis", "d13", JsonVal.jnull⟩
    getJournalAnalysis := ⟨"get_journal_analysis", "d14", JsonVal.jnull⟩
    getHashtagAnalysis := ⟨"get_hashtag_analysis", "d15", JsonVal.jnull⟩
    getVersionInfo := ⟨"get_version_info", "d16", JsonVal.jnull⟩
    getProductHelp := ⟨"get_product_help", "d17", JsonVal.jnull⟩
    submitProductFeedback :=
      ⟨"submit_product_feedback", "d18", JsonVal.jnull⟩ }

def demoHandler : Handler := fun _ _ => Except.ok (JsonVal.jstr "ok")

theorem demoDefs_names : NamesCorrect demoDefs := by
  refine ⟨?_, ?_, ?_, ?_, ?_, ?_, ?_, ?_, ?_, ?_, ?_, ?_, ?_, ?_, ?_, ?_,
    ?_, ?_⟩ <;> rfl

/-- Witness for C5: with the real tool names, disabling switching removes
exactly `select_child`, and the enabled registry is one tool larger. -/
theorem registry_c5_witness :
    ¬ ("select_child" ∈ (mkRegistry (some false) demoDefs
        (fun _ => demoHandler)).map (fun t => t.defn.name))
    ∧ ("select_child" ∈ (mkRegistry none demoDefs
        (fun _ => demoHandler)).map (fun t => t.defn.name))
    ∧ (mkRegistry none demoDefs (fun _ => demoHandler)).length
        = (mkRegistry (some false) demoDefs (fun _ => demoHandler)).length
          + 1 := by
  have hf := registry_c5 (some false) demoDefs (fun _ => demoHandler)
    demoDefs_names
  have hn := registry_c5 none demoDefs (fun _ => demoHandler) demoDefs_names
  refine ⟨fun hmem => (hf.1.mp hmem) rfl, hn.1.mpr (by decide), ?_⟩
  rw [hn.2.2, hf.2.2]
  decide

/-! ## `ToolRegistry.executeTool` and `MCPCore.executeTools` -/

/-- JS `{...obj, key: v}` / property set: replace the field in place when the
key exists, else append it. -/
def setField (fields : List (String × JsonVal)) (k : String) (v : JsonVal) :
    List (String × JsonVal) :=
  if fields.any (fun f => f.1 = k) then
    fields.map (fun f => if f.1 = k then (k, v) else f)
  else fields ++ [(k, v)]

/-- Spreading a JS array into an object: index-keyed fields. -/
def indexedFields (items : List JsonVal) : List (String × JsonVal) :=
  items.enum.map (fun p => (toString p.1, p.2))

/-- Attaching a pending update notice to a handler result: string results get
the notice concatenated (with a blank line); object results get an
`updateNotification` field; anything else is returned unchanged. -/
def attachNotification (result : JsonVal) (note : String) : JsonVal :=
  match result with
  | JsonVal.jstr s => JsonVal.jstr (s ++ "\n\n" ++ note)
  | JsonVal.jobj fields =>
    JsonVal.jobj (setField fields "updateNotification" (JsonVal.jstr note))
  | JsonVal.jarr items =>
    JsonVal.jobj
      (setField (indexedFields items) "updateNotification" (JsonVal.jstr note))
  | v => v

/-- The `{result, timing: {duration}}` envelope `executeTool` returns. -/
structure ExecEnvelope where
  result : JsonVal
  timing : Int

/-- `ToolRegistry.executeTool(name, args, sessionId)`: look up the tool
(`Tool not found` otherwise), resolve the session (propagating `Session not
found`), run the handler, attach a pending update notice if the notifier
reports one, and wrap the result with the measured duration.  The clock reads
(`now`, measured `dur`) and the notifier's answer are explicit parameters. -/
def executeTool (tools : List RegisteredTool) (name : String) (args : JsonVal)
    (sessionId : String) (store : SessionStore) (now : Int)
    (updateNote : Option String) (dur : Int) :
    Except String (ExecEnvelope × SessionStore) :=
  match tools.find? (fun t => t.defn.name = name) with
  | none => Except.error ("Tool not found: " ++ name)
  | some tool =>
    match getSessionE store sessionId now with
    | Except.error e => Except.error e
    | Except.ok (session, store') =>
      match tool.handler args session with
      | Except.error e => Except.error e
      | Except.ok result =>
        let finalResult :=
          match strTruthy updateNote with
          | some note => attachNotification result note
          | none => result
        Except.ok ({ result := finalResult, timing := dur }, store')

/-- C7: on a successful call, a pending notification is attached as pure
string concatenation for a textual result and as a single added
`updateNotification` field (all other fields unchanged, in order) for an
object result; with no pending notification the handler result is wrapped
unmodified with the timing metadata. -/
theorem executeTool_c7 (tools : List RegisteredTool) (name : String)
    (args : JsonVal) (sessionId : String) (store : SessionStore) (now : Int)
    (dur : Int) (tool : RegisteredTool) (session : Session)
    (store' : SessionStore) (r : JsonVal)
    (hfind : tools.find? (fun t => t.defn.name = name) = some tool)
    (hsess : getSessionE store sessionId now = Except.ok (session, store'))
    (hhandler : tool.handler args session = Except.ok r) :
    (executeTool tools name args sessionId store now none dur
      = Except.ok ({ result := r, timing := dur }, store'))
    ∧ (∀ note s, note ≠ "" → r = JsonVal.jstr s →
      executeTool tools name args sessionId store now (some note) dur
        = Except.ok
            ({ result := JsonVal.jstr (s ++ "\n\n" ++ note), timing := dur },
             store'))
    ∧ (∀ note fields, note ≠ "" → r = JsonVal.jobj fields →
      (∀ f ∈ fields, f.1 ≠ "updateNotification") →
      executeTool tools name args sessionId store now (some note) dur
        = Except.ok
            ({ result := JsonVal.jobj
                 (fields ++ [("updateNotification", JsonVal.jstr note)]),
               timing := dur },
             store')) := by
  refine ⟨?_, ?_, ?_⟩
  · simp only [executeTool, hfind, hsess, hhandler, strTruthy]
  · intro note s hnote hr
    simp only [executeTool, hfind, hsess, hhandler, hr, strTruthy,
      if_neg hnote, attachNotification]
  · intro note fields hnote hr hfree
    have hany : (fields.any (fun f => f.1 = "updateNotification")) = false := by
      rw [List.any_eq_false]
      intro f hf
      simpa using hfree f hf
    simp only [executeTool, hfind, hsess, hhandler, hr, strTruthy,
      if_neg hnote, attachNotification, setField, hany, Bool.false_eq_true,
      if_false]

/-- A one-tool registry, a one-session store, and the touched store, for
concrete runs. -/
def demoTools : List RegisteredTool :=
  [{ defn := ⟨"t1", "demo tool", JsonVal.jnull⟩, handler := demoHandler }]

def demoSession : Session :=
  { sessionId := "s1", userId := "u1", selectedChildId := none,
    selectedChildName := none, childrenCache := none, createdAt := 0,
    lastActivity := 0 }

def demoStore : SessionStore := [("s1", demoSession)]

def demoStoreTouched : SessionStore :=
  [("s1", { demoSession with lastActivity := 10 })]

/-- Witness for C7: on the demo registry, a pending notice is appended to the
string result, and with no notice the result is wrapped untouched. -/
theorem executeTool_c7_witness :
    (executeTool demoTools "t1" JsonVal.jnull "s1" demoStore 10 none 5
      = Except.ok ({ result := JsonVal.jstr "ok", timing := 5 },
          demoStoreTouched))
    ∧ (executeTool demoTools "t1" JsonVal.jnull "s1" demoStore 10
        (some "Update available") 5
      = Except.ok
          ({ result := JsonVal.jstr ("ok" ++ "\n\n" ++ "Update available"),
             timing := 5 },
           demoStoreTouched)) := by
  have h := executeTool_c7 demoTools "t1" JsonVal.jnull "s1" demoStore 10 5
    { defn := ⟨"t1", "demo tool", JsonVal.jnull⟩, handler := demoHandler }
    { demoSession with lastActivity := 10 } demoStoreTouched
    (JsonVal.jstr "ok") rfl rfl rfl
  exact ⟨h.1, h.2.1 "Update available" "ok" (by decide) rfl⟩

/-- One call of a batch: `{name, arguments}`. -/
structure BatchCall where
  name : String
  arguments : JsonVal

/-- One per-call outcome record of `executeTools`. -/
structure BatchRecord where
  toolName : String
  success : Bool
  result : Option ExecEnvelope
  error : Option String

/-- `MCPCore.executeTool`: fails when the core is uninitialized, otherwise
delegates to the registry. -/
def coreExecuteTool (sessionIdOpt : Option String)
    (tools : List RegisteredTool) (name : String) (args : JsonVal)
    (store : SessionStore) (now : Int) (note : Option String) (dur : Int) :
    Except String (ExecEnvelope × SessionStore) :=
  match sessionIdOpt with
  | none =>
    Except.error "MCP Core not initialized. Call initializeWithToken() or initializeWithUserContext() first."
  | some sid => executeTool tools name args sid store now note dur

/-- The `for...of` loop of `MCPCore.executeTools`: strictly sequential (each
call starts from the state its predecessor left), every thrown error
captured as a `{success: false, error}` record. -/
def runBatch (tools : List RegisteredTool) (sessionIdOpt : Option String)
    (calls : List BatchCall) (store : SessionStore) (now : Int)
    (note : Option String) (dur : Int) : List BatchRecord × SessionStore :=
  match calls with
  | [] => ([], store)
  | c :: rest =>
    match coreExecuteTool sessionIdOpt tools c.name c.arguments store now
        note dur with
    | Except.ok (env, store') =>
      let r := runBatch tools sessionIdOpt rest store' now note dur
      ({ toolName := c.name, success := true, result := some env,
         error := none } :: r.1, r.2)
    | Except.error e =>
      let r := runBatch tools sessionIdOpt rest store now note dur
      ({ toolName := c.name, success := false, result := none,
         error := some e } :: r.1, r.2)

/-- `MCPCore.executeTools(toolCalls)`: rejects schema-only mode as a whole,
otherwise never throws. -/
def executeTools (schemaOnly : Bool) (sessionIdOpt : Option String)
    (tools : List RegisteredTool) (calls : List BatchCall)
    (store : SessionStore) (now : Int) (note : Option String) (dur : Int) :
    Except String (List BatchRecord × SessionStore) :=
  if schemaOnly then
    Except.error "Cannot execute tools in schema-only mode. Tools require full MCP Core initialization."
  else
    Except.ok (runBatch tools sessionIdOpt calls store now note dur)

theorem runBatch_length (tools : List RegisteredTool)
    (sessionIdOpt : Option String) (calls : List BatchCall)
    (store : SessionStore) (now : Int) (note : Option String) (dur : Int) :
    (runBatch tools sessionIdOpt calls store now note dur).1.length
      = calls.length
    ∧ (runBatch tools sessionIdOpt calls store now note dur).1.map
        BatchRecord.toolName = calls.map BatchCall.name := by
  induction calls generalizing store with
  | nil => exact ⟨rfl, rfl⟩
  | cons c rest ih =>
    unfold runBatch
    cases coreExecuteTool sessionIdOpt tools c.name c.arguments store now
        note dur with
    | ok pair =>
      obtain ⟨env, store'⟩ := pair
      simpa using ih store'
    | error e =>
      simpa using ih store

/-- C6: an initialized, non-schema-only batch never throws as a whole and
yields exactly one record per call in input order; each call runs strictly
sequentially — a successful call's record is followed by the rest of the
batch run in the successor state, a failing call's record carries the error
and the rest runs from the unchanged state, so one failure never aborts its
siblings. -/
theorem executeBatch_c6 :
    (∀ (sessionIdOpt : Option String) (tools : List RegisteredTool)
      (calls : List BatchCall) (store : SessionStore) (now : Int)
      (note : Option String) (dur : Int),
      ∃ out, executeTools false sessionIdOpt tools calls store now note dur
          = Except.ok out
        ∧ out.1.length = calls.length
        ∧ out.1.map BatchRecord.toolName = calls.map BatchCall.name)
    ∧ (∀ (tools : List RegisteredTool) (sessionIdOpt : Option String)
      (c : BatchCall) (rest : List BatchCall) (store : SessionStore)
      (now : Int) (note : Option String) (dur : Int) (env : ExecEnvelope)
      (store' : SessionStore),
      coreExecuteTool sessionIdOpt tools c.name c.arguments store now note dur
          = Except.ok (env, store') →
      runBatch tools sessionIdOpt (c :: rest) store now note dur
        = ({ toolName := c.name, success := true, result := some env,
             error := none }
            :: (runBatch tools sessionIdOpt rest store' now note dur).1,
           (runBatch tools sessionIdOpt rest store' now note dur).2))
    ∧ (∀ (tools : List RegisteredTool) (sessionIdOpt : Option String)
      (c : BatchCall) (rest : List BatchCall) (store : SessionStore)
      (now : Int) (note : Option String) (dur : Int) (e : String),
      coreExecuteTool sessionIdOpt tools c.name c.arguments store now note dur
          = Except.error e →
      runBatch tools sessionIdOpt (c :: rest) store now note dur
        = ({ toolName := c.name, success := false, result := none,
             error := some e }
            :: (runBatch tools sessionIdOpt rest store now note dur).1,
           (runBatch tools sessionIdOpt rest store now note dur).2)) := by
  refine ⟨?_, ?_, ?_⟩
  · intro sessionIdOpt tools calls store now note dur
    refine ⟨runBatch tools sessionIdOpt calls store now note dur, rfl, ?_, ?_⟩
    · exact (runBatch_length tools sessionIdOpt calls store now note dur).1
    · exact (runBatch_length tools sessionIdOpt calls store now note dur).2
  · intro tools sessionIdOpt c rest store now note dur env store' h
    conv_lhs => rw [runBatch]
    rw [h]
  · intro tools sessionIdOpt c rest store now note dur e h
    conv_lhs => rw [runBatch]
    rw [h]

/-- Witness for C6: a two-call batch with one unknown tool name and one valid
call yields exactly two records — the first `{success: false, error: "Tool
not found: …"}`, the second `{success: true, result: …}` — and the whole
batch returns normally. -/
theorem executeBatch_c6_witness :
    (∃ out, executeTools false (some "s1") demoTools
        [{ name := "nope", arguments := JsonVal.jnull },
         { name := "t1", arguments := JsonVal.jnull }] demoStore 10 none 5
        = Except.ok out
      ∧ out.1.length = 2
      ∧ out.1.map BatchRecord.toolName = ["nope", "t1"])
    ∧ runBatch demoTools (some "s1")
        [{ name := "nope", arguments := JsonVal.jnull },
         { name := "t1", arguments := JsonVal.jnull }] demoStore 10 none 5
      = ({ toolName := "nope", success := false, result := none,
           error := some "Tool not found: nope" }
          :: (runBatch demoTools (some "s1")
              [{ name := "t1", arguments := JsonVal.jnull }] demoStore 10
              none 5).1,
         (runBatch demoTools (some "s1")
            [{ name := "t1", arguments := JsonVal.jnull }] demoStore 10
            none 5).2)
    ∧ runBatch demoTools (some "s1")
        [{ name := "t1", arguments := JsonVal.jnull }] demoStore 10 none 5
      = ({ toolName := "t1", success := true,
           result := some { result := JsonVal.jstr "ok", timing := 5 },
           error := none }
          :: (runBatch demoTools (some "s1") [] demoStoreTouched 10 none 5).1,
         (runBatch demoTools (some "s1") [] demoStoreTouched 10 none 5).2) := by
  refine ⟨executeBatch_c6.1 (some "s1") demoTools _ demoStore 10 none 5,
    executeBatch_c6.2.2 demoTools (some "s1")
      { name := "nope", arguments := JsonVal.jnull }
      [{ name := "t1", arguments := JsonVal.jnull }] demoStore 10 none 5
      "Tool not found: nope" rfl,
    executeBatch_c6.2.1 demoTools (some "s1")
      { name := "t1", arguments := JsonVal.jnull } [] demoStore 10 none 5
      { result := JsonVal.jstr "ok", timing := 5 } demoStoreTouched rfl⟩

/-! ## `transformJournalAnalysis` (`analysisData.js` lines 394–511)

Notable entries are collected in an insertion-ordered `Map` keyed by journal
entry id, then sorted by date descending and capped at 20.  Badge objects are
association lists with `Option Rat` values (a key moment's score is copied
unconditionally and may be absent). -/

structure InferredScores where
  overall : Option Rat
deriving DecidableEq

structure EntryScores where
  keyMomentScore : Option Rat
  heartfeltScore : Option Rat
  funnyStoryScore : Option Rat
  cutenessScore : Option Rat
  turnaroundScore : Option Rat
  effectiveStrategiesScore : Option Rat
  crazyStoryScore : Option Rat
  shortTitle : Option String
  summary : Option String
  longSummary : Option String
  inferredBehaviorScores : Option InferredScores
deriving DecidableEq

/-- `entry.results || {}`. -/
def emptyScores : EntryScores :=
  { keyMomentScore := none, heartfeltScore := none, funnyStoryScore := none,
    cutenessScore := none, turnaroundScore := none,
    effectiveStrategiesScore := none, crazyStoryScore := none,
    shortTitle := none, summary := none, longSummary := none,
    inferredBehaviorScores := none }

structure KeyMoment where
  journalEntryId : Option String
  date : String
  title : Option String
  summary : Option String
  behaviorScore : Option Rat
  fullName : Option String
  preferredName : Option String
  keyMomentScore : Option Rat
deriving DecidableEq

structure JournalEntryRaw where
  journalEntryId : String
  date : String
  results : Option EntryScores
  fullName : Option String
  preferredName : Option String
deriving DecidableEq

structure NotableEntry where
  journalEntryId : String
  date : String
  title : Option String
  summary : Option String
  behaviorScore : Option Rat
  authorName : Option String
  badges : List (String × Option Rat)
deriving DecidableEq

/-- `score > 0.7` under JS semantics (`undefined > 0.7` is false). -/
def scoreGt (o : Option Rat) : Bool :=
  match o with
  | some s => decide (mkRat 7 10 < s)
  | none => false

/-- `badges.<name> = v`: set-or-append on the badge object. -/
def setBadgeField (badges : List (String × Option Rat)) (k : String)
    (v : Option Rat) : List (String × Option Rat) :=
  if badges.any (fun f => f.1 = k) then
    badges.map (fun f => if f.1 = k then (k, v) else f)
  else badges ++ [(k, v)]

abbrev NotableMap := List (String × NotableEntry)

/-- `notableEntries.get(entryId).badges.<name> = v`. -/
def mapSetBadge (m : NotableMap) (entryId : String) (badge : String)
    (v : Option Rat) : NotableMap :=
  m.map (fun p =>
    if p.1 = entryId then
      (p.1, { p.2 with badges := setBadgeField p.2.badges badge v })
    else p)

/-- The entry seeded from a key moment. -/
def kmEntry (moment : KeyMoment) (entryId : String) : NotableEntry :=
  { journalEntryId := entryId
    date := moment.date
    title := moment.title
    summary := moment.summary
    behaviorScore := moment.behaviorScore
    authorName := (strTruthy moment.fullName).orElse
      (fun _ => moment.preferredName)
    badges := [] }

/-- Processing one key moment: ensure the entry exists, then copy its
`keyMomentScore` into the badges unconditionally (no threshold). -/
def kmStep (m : NotableMap) (moment : KeyMoment) : NotableMap :=
  let entryId := (strTruthy moment.journalEntryId).getD
    ("journal_entry_" ++ moment.date)
  let m1 :=
    if m.any (fun p => p.1 = entryId) then m
    else m ++ [(entryId, kmEntry moment entryId)]
  mapSetBadge m1 entryId "keyMoment" moment.keyMomentScore

/-- The entry seeded from a journal entry's scores. -/
def entryFromScores (entry : JournalEntryRaw) (scores : EntryScores) :
    NotableEntry :=
  { journalEntryId := entry.journalEntryId
    date := entry.date
    title := some ((strTruthy scores.shortTitle).getD "No title")
    summary := some (((strTruthy scores.summary).orElse
      (fun _ => strTruthy scores.longSummary)).getD "No summary")
    behaviorScore := scores.inferredBehaviorScores.bind InferredScores.overall
    authorName := (strTruthy entry.fullName).orElse
      (fun _ => entry.preferredName)
    badges := [] }

/-- `hasNotableScore`: some special-category score strictly exceeds 0.7. -/
def hasNotableE (entry : JournalEntryRaw) : Bool :=
  let scores := entry.results.getD emptyScores
  scoreGt scores.keyMomentScore
  || scoreGt scores.heartfeltScore
  || scoreGt scores.funnyStoryScore
  || scoreGt scores.cutenessScore
  || scoreGt scores.turnaroundScore
  || scoreGt scores.effectiveStrategiesScore
  || scoreGt scores.crazyStoryScore

/-- Processing one journal entry: skip unless some score qualifies, ensure
the entry exists, then attach each qualifying badge in order. -/
def entryStep (m : NotableMap) (entry : JournalEntryRaw) : NotableMap :=
  let scores := entry.results.getD emptyScores
  if hasNotableE entry then
    let entryId := entry.journalEntryId
    let m1 :=
      if m.any (fun p => p.1 = entryId) then m
      else m ++ [(entryId, entryFromScores entry scores)]
    let m2 := if scoreGt scores.keyMomentScore then
      mapSetBadge m1 entryId "keyMoment" scores.keyMomentScore else m1
    let m3 := if scoreGt scores.heartfeltScore then
      mapSetBadge m2 entryId "heartfelt" scores.heartfeltScore else m2
    let m4 := if scoreGt scores.funnyStoryScore then
      mapSetBadge m3 entryId "funny" scores.funnyStoryScore else m3
    let m5 := if scoreGt scores.cutenessScore then
      mapSetBadge m4 entryId "cute" scores.cutenessScore else m4
    let m6 := if scoreGt scores.turnaroundScore then
      mapSetBadge m5 entryId "turnaround" scores.turnaroundScore else m5
    let m7 := if scoreGt scores.effectiveStrategiesScore then
      mapSetBadge m6 entryId "effectiveStrategies"
        scores.effectiveStrategiesScore else m6
    let m8 := if scoreGt scores.crazyStoryScore then
      mapSetBadge m7 entryId "crazy" scores.crazyStoryScore else m7
    m8
  else m

/-- The day number the date-descending sort comparator
(`new Date(b.date) - new Date(a.date)`) keys on; the dates in this payload
are `YYYY-MM-DD` day stamps. -/
def dateNum (s : String) : Int :=
  (parseYMD (headStr (splitOnChar 'T' s))).getD 0

def dateDescLe (a b : NotableEntry) : Prop :=
  dateNum b.date ≤ dateNum a.date

instance : DecidableRel dateDescLe := fun a b =>
  inferInstanceAs (Decidable (dateNum b.date ≤ dateNum a.date))

structure RawJournalAnalysis where
  analysisMetaDateRange : Option (String × String)
  journalStats : Option JsonVal
  keyMoments : Option (List KeyMoment)
  journalEntries : Option (List JournalEntryRaw)

structure JournalAnalysisOutput where
  timeRange : String
  childName : String
  badgeScoreNote : Option String
  behaviorScoreNote : Option String
  dateRange : Option (String × String)
  journalStats : Option JsonVal
  notableEntries : Option (List NotableEntry)
  message : Option String

/-- `transformJournalAnalysis(rawData, childName, timeRange)`.  The
`toLocaleDateString` rendering of the date range is environment-dependent and
passed through as the raw strings. -/
def transformJournalAnalysis (rawData : Option RawJournalAnalysis)
    (childName timeRange : String) : JournalAnalysisOutput :=
  match rawData with
  | none =>
    { timeRange := timeRange, childName := childName,
      badgeScoreNote := none, behaviorScoreNote := none, dateRange := none,
      journalStats := none, notableEntries := none,
      message := some ("No journal analysis data available for " ++ childName
        ++ " in the " ++ timeRange ++ " period.") }
  | some raw =>
    let m1 := (raw.keyMoments.getD []).foldl kmStep []
    let m2 := (raw.journalEntries.getD []).foldl entryStep m1
    { timeRange := timeRange
      childName := childName
      badgeScoreNote := some "Badge scores range from 0 to 1, with 0.7+ required to earn a badge. Higher scores indicate stronger confidence in that category."
      behaviorScoreNote := some "Behavior scores range from 1 (very challenging day) to 4 (excellent day). Higher scores indicate better behavior."
      dateRange := raw.analysisMetaDateRange
      journalStats := raw.journalStats
      notableEntries :=
        if 0 < m2.length then
          some ((List.insertionSort dateDescLe (m2.map Prod.snd)).take 20)
        else none
      message := none }

/-- The badges a journal entry ends up with: exactly the dimensions whose
score strictly exceeds 0.7, in the source's fixed order. -/
def qualifyingBadges (s : EntryScores) : List (String × Option Rat) :=
  (if scoreGt s.keyMomentScore then [("keyMoment", s.keyMomentScore)] else [])
  ++ (if scoreGt s.heartfeltScore then [("heartfelt", s.heartfeltScore)] else [])
  ++ (if scoreGt s.funnyStoryScore then [("funny", s.funnyStoryScore)] else [])
  ++ (if scoreGt s.cutenessScore then [("cute", s.cutenessScore)] else [])
  ++ (if scoreGt s.turnaroundScore then [("turnaround", s.turnaroundScore)] else [])
  ++ (if scoreGt s.effectiveStrategiesScore then
      [("effectiveStrategies", s.effectiveStrategiesScore)] else [])
  ++ (if scoreGt s.crazyStoryScore then [("crazy", s.crazyStoryScore)] else [])

/-- The notable entry a qualifying journal entry contributes when its id is
fresh: the seeded entry carrying exactly its qualifying badges. -/
def specNotable (e : JournalEntryRaw) : NotableEntry :=
  { entryFromScores e (e.results.getD emptyScores) with
    badges := qualifyingBadges (e.results.getD emptyScores) }

/-- The notable-entries map invariant: keys are distinct and each entry
records its own key as `journalEntryId`. -/
def mapInv (m : NotableMap) : Prop :=
  (m.map Prod.fst).Nodup ∧ ∀ p ∈ m, p.2.journalEntryId = p.1

theorem mapSetBadge_inv (m : NotableMap) (id b : String) (v : Option Rat)
    (h : mapInv m) : mapInv (mapSetBadge m id b v) := by
  obtain ⟨hk, hv⟩ := h
  constructor
  · unfold mapSetBadge
    rw [List.map_map]
    have : ∀ p ∈ m,
        (Prod.fst ∘ fun p =>
          if p.1 = id then
            (p.1, { p.2 with badges := setBadgeField p.2.badges b v })
          else p) p = Prod.fst p := by
      intro p hp
      by_cases hpi : p.1 = id <;> simp [hpi]
    rw [List.map_congr_left this]
    exact hk
  · intro q hq
    obtain ⟨p, hp, hpe⟩ := List.mem_map.mp hq
    by_cases hpi : p.1 = id
    · rw [← hpe]
      simp [hpi, hv p hp]
    · rw [← hpe]
      simp [hpi, hv p hp]

theorem mapInsert_inv (m : NotableMap) (id : String) (e : NotableEntry)
    (h : mapInv m) (hfresh : (m.any (fun p => p.1 = id)) = false)
    (hid : e.journalEntryId = id) : mapInv (m ++ [(id, e)]) := by
  obtain ⟨hk, hv⟩ := h
  constructor
  · rw [List.map_append, List.nodup_append]
    refine ⟨hk, by simp, ?_⟩
    intro x hx
    simp only [List.map_cons, List.map_nil, List.mem_singleton]
    intro hxid
    obtain ⟨p, hp, hpe⟩ := List.mem_map.mp hx
    have := List.any_eq_false.mp hfresh p hp
    rw [hxid] at hpe
    simp [hpe] at this
  · intro q hq
    rcases List.mem_append.mp hq with hq | hq
    · exact hv q hq
    · have : q = (id, e) := by simpa using hq
      rw [this]
      exact hid

theorem condSetBadge_inv (mm : NotableMap) (cond : Prop) [Decidable cond]
    (id b : String) (v : Option Rat) (h : mapInv mm) :
    mapInv (if cond then mapSetBadge mm id b v else mm) := by
  split
  · exact mapSetBadge_inv _ _ _ _ h
  · exact h

theorem kmStep_inv (m : NotableMap) (km : KeyMoment) (h : mapInv m) :
    mapInv (kmStep m km) := by
  unfold kmStep
  apply mapSetBadge_inv
  split
  · exact h
  · rename_i hfresh
    exact mapInsert_inv _ _ _ h (Bool.eq_false_iff.mpr hfresh) rfl

theorem entryStep_inv (m : NotableMap) (e : JournalEntryRaw) (h : mapInv m) :
    mapInv (entryStep m e) := by
  unfold entryStep
  split
  · refine condSetBadge_inv _ _ _ _ _ (condSetBadge_inv _ _ _ _ _
      (condSetBadge_inv _ _ _ _ _ (condSetBadge_inv _ _ _ _ _
      (condSetBadge_inv _ _ _ _ _ (condSetBadge_inv _ _ _ _ _
      (condSetBadge_inv _ _ _ _ _ ?_))))))
    split
    · exact h
    · rename_i hfresh
      exact mapInsert_inv _ _ _ h (Bool.eq_false_iff.mpr hfresh) rfl
  · exact h

theorem foldKm_inv (kms : List KeyMoment) (m : NotableMap) (h : mapInv m) :
    mapInv (kms.foldl kmStep m) := by
  induction kms generalizing m with
  | nil => exact h
  | cons km rest ih => exact ih _ (kmStep_inv _ _ h)

theorem foldEntry_inv (es : List JournalEntryRaw) (m : NotableMap)
    (h : mapInv m) : mapInv (es.foldl entryStep m) := by
  induction es generalizing m with
  | nil => exact h
  | cons e rest ih => exact ih _ (entryStep_inv _ _ h)

theorem mapInv_values_pairwise (m : NotableMap) (h : mapInv m) :
    (m.map Prod.snd).Pairwise
      (fun a b => a.journalEntryId ≠ b.journalEntryId) := by
  obtain ⟨hk, hv⟩ := h
  have hp : m.Pairwise (fun p q => p.1 ≠ q.1) := List.pairwise_map.mp hk
  rw [List.pairwise_map]
  exact hp.imp_of_mem (fun hpm hqm hne => by
    rw [hv _ hpm, hv _ hqm]
    exact hne)

theorem entryFromScores_badges (e : JournalEntryRaw) (s : EntryScores) :
    (entryFromScores e s).badges = [] := rfl

theorem mapSetBadge_append (m : NotableMap) (id : String)
    (h : (m.any (fun p => p.1 = id)) = false) (b : String) (v : Option Rat)
    (entry : NotableEntry) :
    mapSetBadge (m ++ [(id, entry)]) id b v
      = m ++ [(id, { entry with badges := setBadgeField entry.badges b v })] := by
  unfold mapSetBadge
  rw [List.map_append]
  have h1 : ∀ p ∈ m,
      (if p.1 = id then
        (p.1, { p.2 with badges := setBadgeField p.2.badges b v })
      else p) = p := by
    intro p hp
    have h2 : ¬ p.1 = id := by simpa using List.any_eq_false.mp h p hp
    simp [h2]
  rw [List.map_congr_left h1]
  simp

theorem entryStep_fresh (m : NotableMap) (e : JournalEntryRaw)
    (hfresh : (m.any (fun p => p.1 = e.journalEntryId)) = false) :
    entryStep m e
      = if hasNotableE e then m ++ [(e.journalEntryId, specNotable e)]
        else m := by
  by_cases hn : hasNotableE e = true
  · rw [if_pos hn]
    by_cases c1 : scoreGt (e.results.getD emptyScores).keyMomentScore = true <;>
    by_cases c2 : scoreGt (e.results.getD emptyScores).heartfeltScore = true <;>
    by_cases c3 : scoreGt (e.results.getD emptyScores).funnyStoryScore = true <;>
    by_cases c4 : scoreGt (e.results.getD emptyScores).cutenessScore = true <;>
    by_cases c5 : scoreGt (e.results.getD emptyScores).turnaroundScore = true <;>
    by_cases c6 : scoreGt (e.results.getD emptyScores).effectiveStrategiesScore
      = true <;>
    by_cases c7 : scoreGt (e.results.getD emptyScores).crazyStoryScore = true <;>
    first
      | (revert hn
         unfold hasNotableE
         simp [c1, c2, c3, c4, c5, c6, c7]
         done)
      | (simp [entryStep, hn, hfresh, c1, c2, c3, c4, c5, c6, c7,
          mapSetBadge_append m e.journalEntryId hfresh, specNotable,
          qualifyingBadges, setBadgeField, entryFromScores_badges]
         done)
  · rw [if_neg hn]
    simp [entryStep, hn]

theorem entryFold_spec (entries : List JournalEntryRaw) (m : NotableMap)
    (hfresh : ∀ e ∈ entries,
      (m.any (fun p => p.1 = e.journalEntryId)) = false)
    (hnodup : (entries.map JournalEntryRaw.journalEntryId).Nodup) :
    entries.foldl entryStep m
      = m ++ (entries.filter (fun e => hasNotableE e)).map
          (fun e => (e.journalEntryId, specNotable e)) := by
  induction entries generalizing m with
  | nil => simp
  | cons e rest ih =>
    have hstep := entryStep_fresh m e (hfresh e (List.mem_cons_self e rest))
    have hnodup' : (rest.map JournalEntryRaw.journalEntryId).Nodup :=
      (List.nodup_cons.mp hnodup).2
    have hne : ∀ e' ∈ rest, e'.journalEntryId ≠ e.journalEntryId := by
      intro e' he' heq
      exact (List.nodup_cons.mp hnodup).1
        (heq ▸ List.mem_map_of_mem JournalEntryRaw.journalEntryId he')
    by_cases hn : hasNotableE e = true
    · rw [List.foldl_cons, hstep, if_pos hn]
      rw [ih (m ++ [(e.journalEntryId, specNotable e)]) ?_ hnodup']
      · rw [List.filter_cons_of_pos (by simpa using hn)]
        simp
      · intro e' he'
        rw [List.any_append]
        simp only [Bool.or_eq_false_iff]
        refine ⟨hfresh e' (List.mem_cons_of_mem e he'), ?_⟩
        have hne' : e.journalEntryId ≠ e'.journalEntryId :=
          fun hq => hne e' he' hq.symm
        simp [hne']
    · rw [List.foldl_cons, hstep, if_neg hn]
      rw [ih m (fun e' he' => hfresh e' (List.mem_cons_of_mem e he')) hnodup']
      rw [List.filter_cons_of_neg (by simpa using hn)]

instance : IsTotal NotableEntry dateDescLe :=
  ⟨fun a b => le_total (dateNum b.date) (dateNum a.date)⟩

instance : IsTrans NotableEntry dateDescLe :=
  ⟨fun _ _ _ h1 h2 => le_trans h2 h1⟩

/-- C10 (amended): `notableEntries`, when present, holds at most 20 entries,
sorted by date descending, with pairwise-distinct journal entry ids (the map
deduplicates by id); when `keyMoments` is empty and the journal entries carry
distinct ids, it is present iff some entry has a badge score strictly above
0.7 and then consists of exactly the qualifying entries, each carrying
exactly its above-0.7 badges, sorted by date descending and capped at 20.
(Entries arriving through `keyMoments` are included *unconditionally*, with
their `keyMomentScore` copied as a badge regardless of the 0.7 threshold —
see the counterexample.) -/
theorem journalAnalysis_c10_amended (raw : RawJournalAnalysis)
    (childName timeRange : String) :
    (∀ l, (transformJournalAnalysis (some raw) childName
        timeRange).notableEntries = some l →
      l.length ≤ 20
      ∧ l.Pairwise dateDescLe
      ∧ l.Pairwise (fun a b => a.journalEntryId ≠ b.journalEntryId))
    ∧ (raw.keyMoments.getD [] = [] →
      ((raw.journalEntries.getD []).map JournalEntryRaw.journalEntryId).Nodup →
      (transformJournalAnalysis (some raw) childName
        timeRange).notableEntries
        = (if 0 < ((raw.journalEntries.getD []).filter
              (fun e => hasNotableE e)).length then
            some ((List.insertionSort dateDescLe
              (((raw.journalEntries.getD []).filter
                (fun e => hasNotableE e)).map specNotable)).take 20)
          else none)) := by
  constructor
  · intro l hl
    simp only [transformJournalAnalysis] at hl
    set m2 := (raw.journalEntries.getD []).foldl entryStep
      ((raw.keyMoments.getD []).foldl kmStep []) with hm2
    by_cases hlen : 0 < m2.length
    · simp only [← hm2, hlen, if_pos, Option.some.injEq] at hl
      have hinv : mapInv m2 :=
        foldEntry_inv _ _ (foldKm_inv _ _ ⟨List.nodup_nil, by simp⟩)
      refine ⟨?_, ?_, ?_⟩
      · rw [← hl]
        exact List.length_take_le 20 _
      · rw [← hl]
        exact ((List.sorted_insertionSort dateDescLe _).sublist
          (List.take_sublist _ _))
      · rw [← hl]
        have hperm := List.perm_insertionSort dateDescLe (m2.map Prod.snd)
        have hpw := mapInv_values_pairwise m2 hinv
        have : (List.insertionSort dateDescLe (m2.map Prod.snd)).Pairwise
            (fun a b => a.journalEntryId ≠ b.journalEntryId) :=
          (hperm.pairwise_iff
            (fun h => fun heq => h heq.symm)).mpr hpw
        exact this.sublist (List.take_sublist _ _)
    · simp only [← hm2, hlen, if_neg, if_false] at hl
      cases hl
  · intro hkm hnodup
    simp only [transformJournalAnalysis]
    rw [hkm]
    simp only [List.foldl_nil]
    rw [entryFold_spec _ [] (by simp) hnodup]
    simp only [List.nil_append, List.length_map, List.map_map]
    by_cases hlen : 0 < ((raw.journalEntries.getD []).filter
        (fun e => hasNotableE e)).length
    · rw [if_pos hlen, if_pos hlen]
      have : ((raw.journalEntries.getD []).filter
          (fun e => hasNotableE e)).map
            (Prod.snd ∘ fun e => (e.journalEntryId, specNotable e))
          = ((raw.journalEntries.getD []).filter
            (fun e => hasNotableE e)).map specNotable := by
        apply List.map_congr_left
        intro a _
        rfl
      rw [this]
    · rw [if_neg hlen, if_neg hlen]

/-- C10 counterexample: a key moment with score 0.2 — far below the 0.7
badge threshold — is still included in `notableEntries`, carrying the
sub-threshold badge. -/
theorem journalAnalysis_c10_counterexample :
    (transformJournalAnalysis
      (some { analysisMetaDateRange := none, journalStats := none,
              keyMoments := some
                [{ journalEntryId := some "e1", date := "2026-10-01",
                   title := some "t", summary := some "s",
                   behaviorScore := none, fullName := some "Dana",
                   preferredName := none,
                   keyMomentScore := some (mkRat 2 10) }],
              journalEntries := none })
      "Ava" "last_30_days").notableEntries
      = some [{ journalEntryId := "e1", date := "2026-10-01",
                title := some "t", summary := some "s", behaviorScore := none,
                authorName := some "Dana",
                badges := [("keyMoment", some (mkRat 2 10))] }]
    ∧ scoreGt (some (mkRat 2 10)) = false := by
  constructor <;> decide

/-- Witness for C10 (amended): with no key moments and two distinct-id
entries — one carrying heartfelt 0.8 and crazy 0.9, one with every score at
0.5 — the output holds exactly the qualifying entry with exactly its two
badges. -/
theorem journalAnalysis_c10_amended_witness :
    (transformJournalAnalysis
      (some { analysisMetaDateRange := none, journalStats := none,
              keyMoments := none,
              journalEntries := some
                [{ journalEntryId := "a1", date := "2026-10-02",
                   results := some { emptyScores with
                     heartfeltScore := some (mkRat 8 10),
                     crazyStoryScore := some (mkRat 9 10),
                     shortTitle := some "Big day" },
                   fullName := some "Dana", preferredName := none },
                 { journalEntryId := "a2", date := "2026-10-03",
                   results := some { emptyScores with
                     keyMomentScore := some (mkRat 5 10) },
                   fullName := none, preferredName := none }] })
      "Ava" "last_30_days").notableEntries
      = some [{ journalEntryId := "a1", date := "2026-10-02",
                title := some "Big day", summary := some "No summary",
                behaviorScore := none, authorName := some "Dana",
                badges := [("heartfelt", some (mkRat 8 10)),
                           ("crazy", some (mkRat 9 10))] }] := by
  have h := (journalAnalysis_c10_amended
    { analysisMetaDateRange := none, journalStats := none,
      keyMoments := none,
      journalEntries := some
        [{ journalEntryId := "a1", date := "2026-10-02",
           results := some { emptyScores with
             heartfeltScore := some (mkRat 8 10),
             crazyStoryScore := some (mkRat 9 10),
             shortTitle := some "Big day" },
           fullName := some "Dana", preferredName := none },
         { journalEntryId := "a2", date := "2026-10-03",
           results := some { emptyScores with
             keyMomentScore := some (mkRat 5 10) },
           fullName := none, preferredName := none }] }
    "Ava" "last_30_days").2 (by decide) (by decide)
  exact h.trans (by decide)

end AAM
